import Mathlib

/-!
Verification development for the `shared-lib` memory subsystem:
the `Memory::AllocatorStatistic` statistics proxy
(src/src/Memory/AllocatorStatistic.cpp) over the allocator capability
contracts `BasicAllocator` / `ObjectAllocator`
(include/Shared/Memory/BasicAllocator.hpp, ObjectAllocator.hpp).

Modelling conventions:
* `size_t` and `uintmax_t` are 64-bit machine words; they are embedded as
  `Nat` with an explicit `% 2 ^ 64` (`wrap64`) wherever the source performs
  arithmetic that can overflow (`fetch_add`).  Extremum updates
  (`compare_exchange` max/min retry loops) store one of the two compared
  values and never perform arithmetic, so no wrap is applied there.
* Pointers (`void*`) are embedded as `Nat`; the value `0` stands for
  `nullptr`.
* A backend call that returns normally is `BRes.ret p`; a backend call that
  raises is `BRes.exc e`, where `e : Nat` identifies the exception object
  (the proxy's `catch (...) { ...; std::rethrow_exception(eptr); }` re-raises
  the identical exception, i.e. the same `e`).
* The sequential semantics of each `compare_exchange_weak` retry loop in the
  source is `max old new` (for `m_largest`, `m_highest`,
  `m_alloc_largest_fail`) or `min old new` (for `m_smallest`): the loop
  replaces the stored value exactly when the new value is strictly
  larger (resp. smaller).
* The backend is an arbitrary deterministic state machine over a state type
  `beta`; the proxy source only observes the values the backend returns, so
  every theorem below quantifies over the backend.
-/

/-- Modulus of the 64-bit machine words (`size_t`, `uintmax_t`): the
numeral is `2 ^ 64`. -/
def SIZE_MOD : Nat := 18446744073709551616

/-- Value of `std::numeric_limits<size_t>::max()`, the "no successful
allocation yet" sentinel stored in `m_smallest`. -/
def SIZE_MAX : Nat := SIZE_MOD - 1

/-- Wrap-around of 64-bit unsigned arithmetic (`std::atomic<...>::fetch_add`). -/
def wrap64 (n : Nat) : Nat := n % SIZE_MOD

/-- Result of a delegated backend call: a returned pointer (`ret p`, where
`p = 0` encodes `nullptr`) or a raised exception carrying identity `e`. -/
inductive BRes : Type where
  | ret (p : Nat)
  | exc (e : Nat)
deriving DecidableEq, Repr

/-- Is this backend result a successful (non-null, non-raising) return? -/
def BRes.isSucc : BRes → Bool
  | .ret p => p != 0
  | .exc _ => false

/-- The counter set of `Memory::AllocatorStatistic` (the `m_*` atomic data
members declared in AllocatorStatistic.hpp).  The two backing pointers are
not part of the counter state; they appear as the `BackendOps`/state
parameters of the operations below. -/
structure Stats : Type where
  m_smallest : Nat
  m_largest : Nat
  m_highest : Nat
  m_allocC : Nat
  m_alloc_failC : Nat
  m_alloc_largest_fail : Nat
  m_allocB : Nat
  m_reallocC : Nat
  m_realloc_failC : Nat
  m_realloc_growthB : Nat
  m_realloc_shrinkB : Nat
  m_realloc_moveC : Nat
  m_realloc_moveB : Nat
  m_offerC : Nat
  m_offerB : Nat
  m_reclaimC : Nat
  m_reclaim_failC : Nat
  m_reclaimB : Nat
deriving DecidableEq, Repr

/-- Counter values established by the default constructor
`AllocatorStatistic::AllocatorStatistic()` (lines 15-37): every counter 0
except `m_smallest`, which starts at `std::numeric_limits<size_t>::max()`. -/
def Stats.init : Stats :=
  ⟨SIZE_MAX, 0, 0, 0, 0, 0, 0, 0, 0, 0, 0, 0, 0, 0, 0, 0, 0, 0⟩

/-- `AllocatorStatistic::resetCounters` (lines 147-167): assigns every
counter back to its constructed value. -/
def Stats.resetCounters (_s : Stats) : Stats :=
  ⟨SIZE_MAX, 0, 0, 0, 0, 0, 0, 0, 0, 0, 0, 0, 0, 0, 0, 0, 0, 0⟩

/-- An Object-tier backend (`Memory::ObjectAllocator`) as a deterministic
state machine over a backend-state type `beta`.  Mutating operations return
a `BRes` and the successor state; the `const` queries (`getAllocSize`,
`getUsedBytes`, ...) are modelled as total pure observations. `allocD` and
`reallocD` are the destructor-taking overloads, with the destructor pointer
embedded as a `Nat` identifier (the proxy forwards it without inspection). -/
structure BackendOps (beta : Type) : Type where
  alloc : beta → Nat → Nat → BRes × beta
  allocD : beta → Nat → Nat → Nat → BRes × beta
  free : beta → Nat → beta
  realloc : beta → Nat → Nat → Nat → BRes × beta
  reallocD : beta → Nat → Nat → Nat → Nat → BRes × beta
  getAllocSize : beta → Nat → Nat
  offer : beta → Nat → Nat → BRes × beta
  reclaim : beta → Nat → BRes × beta
  reset : beta → beta
  purge : beta → Nat → beta
  clear : beta → beta
  getUsedBytes : beta → Nat
  getFreeBytes : beta → Nat
  getPendingBytes : beta → Nat
  getTotalBytes : beta → Nat

/- Statistic read accessors (AllocatorStatistic.cpp lines 52-145). -/

/-- `getHighestUsage` (line 52). -/
def AllocatorStatistic.getHighestUsage (s : Stats) : Nat := s.m_highest

/-- `getSmallestAlloc` (lines 57-65): reads 0 while `m_smallest` still holds
the `SIZE_MAX` sentinel. -/
def AllocatorStatistic.getSmallestAlloc (s : Stats) : Nat :=
  if s.m_smallest ≠ SIZE_MAX then s.m_smallest else 0

/-- `getLargestAlloc` (line 67). -/
def AllocatorStatistic.getLargestAlloc (s : Stats) : Nat := s.m_largest

/-- `getTotalAllocs` (line 72). -/
def AllocatorStatistic.getTotalAllocs (s : Stats) : Nat := s.m_allocC

/-- `getTotalAllocFails` (line 77). -/
def AllocatorStatistic.getTotalAllocFails (s : Stats) : Nat := s.m_alloc_failC

/-- `getLargestAllocFailed` (line 82). -/
def AllocatorStatistic.getLargestAllocFailed (s : Stats) : Nat :=
  s.m_alloc_largest_fail

/-- `getTotalAllocBytes` (line 87). -/
def AllocatorStatistic.getTotalAllocBytes (s : Stats) : Nat := s.m_allocB

/-- `getTotalReallocs` (line 92). -/
def AllocatorStatistic.getTotalReallocs (s : Stats) : Nat := s.m_reallocC

/-- `getTotalReallocFails` (line 97). -/
def AllocatorStatistic.getTotalReallocFails (s : Stats) : Nat :=
  s.m_realloc_failC

/-- `getTotalReallocGrowth` (line 102). -/
def AllocatorStatistic.getTotalReallocGrowth (s : Stats) : Nat :=
  s.m_realloc_growthB

/-- `getTotalReallocShrink` (line 107). -/
def AllocatorStatistic.getTotalReallocShrink (s : Stats) : Nat :=
  s.m_realloc_shrinkB

/-- `getTotalReallocMoves` (line 112). -/
def AllocatorStatistic.getTotalReallocMoves (s : Stats) : Nat :=
  s.m_realloc_moveC

/-- `getTotalReallocMoved` (line 117). -/
def AllocatorStatistic.getTotalReallocMoved (s : Stats) : Nat :=
  s.m_realloc_moveB

/-- `getTotalOffers` (line 122). -/
def AllocatorStatistic.getTotalOffers (s : Stats) : Nat := s.m_offerC

/-- `getTotalOfferBytes` (line 127). -/
def AllocatorStatistic.getTotalOfferBytes (s : Stats) : Nat := s.m_offerB

/-- `getTotalReclaims` (line 132). -/
def AllocatorStatistic.getTotalReclaims (s : Stats) : Nat := s.m_reclaimC

/-- `getTotalReclaimFails` (line 137). -/
def AllocatorStatistic.getTotalReclaimFails (s : Stats) : Nat :=
  s.m_reclaim_failC

/-- `getTotalReclaimBytes` (line 142). -/
def AllocatorStatistic.getTotalReclaimBytes (s : Stats) : Nat := s.m_reclaimB

/-- `AllocatorStatistic::alloc(size_t, size_t)` (lines 173-226).
`m_allocC` is bumped before delegating; on a non-null return the success
counters are updated (with `current_use` queried from the backend state
after the delegated call); on a null return or on a raised exception the
failure counters are updated; in the raise case the identical exception is
re-raised after the bookkeeping. -/
def AllocatorStatistic.alloc {beta : Type} (bk : BackendOps beta) (s : Stats)
    (b : beta) (bytes align : Nat) : Stats × beta × BRes :=
  let s := { s with m_allocC := wrap64 (s.m_allocC + 1) }
  match bk.alloc b bytes align with
  | (.exc e, b') =>
      ({ s with
          m_alloc_failC := wrap64 (s.m_alloc_failC + 1),
          m_alloc_largest_fail := max s.m_alloc_largest_fail bytes },
        b', .exc e)
  | (.ret p, b') =>
      let current_use := bk.getUsedBytes b'
      if p ≠ 0 then
        ({ s with
            m_allocB := wrap64 (s.m_allocB + bytes),
            m_largest := max s.m_largest bytes,
            m_smallest := min s.m_smallest bytes,
            m_highest := max s.m_highest current_use },
          b', .ret p)
      else
        ({ s with
            m_alloc_failC := wrap64 (s.m_alloc_failC + 1),
            m_alloc_largest_fail := max s.m_alloc_largest_fail bytes },
          b', .ret 0)

/-- `AllocatorStatistic::alloc(size_t, DestructorPtr, size_t)`
(lines 228-281): identical bookkeeping to the basic overload, delegating to
the object backend's destructor-taking `alloc`. -/
def AllocatorStatistic.allocD {beta : Type} (bk : BackendOps beta) (s : Stats)
    (b : beta) (bytes dtor align : Nat) : Stats × beta × BRes :=
  let s := { s with m_allocC := wrap64 (s.m_allocC + 1) }
  match bk.allocD b bytes dtor align with
  | (.exc e, b') =>
      ({ s with
          m_alloc_failC := wrap64 (s.m_alloc_failC + 1),
          m_alloc_largest_fail := max s.m_alloc_largest_fail bytes },
        b', .exc e)
  | (.ret p, b') =>
      let current_use := bk.getUsedBytes b'
      if p ≠ 0 then
        ({ s with
            m_allocB := wrap64 (s.m_allocB + bytes),
            m_largest := max s.m_largest bytes,
            m_smallest := min s.m_smallest bytes,
            m_highest := max s.m_highest current_use },
          b', .ret p)
      else
        ({ s with
            m_alloc_failC := wrap64 (s.m_alloc_failC + 1),
            m_alloc_largest_fail := max s.m_alloc_largest_fail bytes },
          b', .ret 0)

/-- `AllocatorStatistic::free` (lines 283-286): pure delegation, no counter
is touched. -/
def AllocatorStatistic.free {beta : Type} (bk : BackendOps beta) (s : Stats)
    (b : beta) (ptr : Nat) : Stats × beta :=
  (s, bk.free b ptr)

/-- `AllocatorStatistic::realloc(void*, size_t, size_t)` (lines 288-360).
`last_size` is the backend-reported size of `ptr` queried before delegating;
on a non-null return the success counters are updated, the relocation
counters when the returned pointer differs from the input, and the size
delta is classified into the shrink or growth cumulative counter; on a null
return or a raise the failure counters are updated. -/
def AllocatorStatistic.realloc {beta : Type} (bk : BackendOps beta) (s : Stats)
    (b : beta) (ptr bytes align : Nat) : Stats × beta × BRes :=
  let s := { s with m_reallocC := wrap64 (s.m_reallocC + 1) }
  let last_size := bk.getAllocSize b ptr
  match bk.realloc b ptr bytes align with
  | (.exc e, b') =>
      ({ s with
          m_realloc_failC := wrap64 (s.m_realloc_failC + 1),
          m_alloc_largest_fail := max s.m_alloc_largest_fail bytes },
        b', .exc e)
  | (.ret p, b') =>
      let current_use := bk.getUsedBytes b'
      if p ≠ 0 then
        let s := { s with
          m_allocB := wrap64 (s.m_allocB + bytes),
          m_largest := max s.m_largest bytes,
          m_smallest := min s.m_smallest bytes,
          m_highest := max s.m_highest current_use }
        let s := if p ≠ ptr then
            { s with
              m_realloc_moveC := wrap64 (s.m_realloc_moveC + 1),
              m_realloc_moveB := wrap64 (s.m_realloc_moveB + bytes) }
          else s
        let s := if last_size > bytes then
            { s with
              m_realloc_shrinkB := wrap64 (s.m_realloc_shrinkB + (last_size - bytes)) }
          else if last_size < bytes then
            { s with
              m_realloc_growthB := wrap64 (s.m_realloc_growthB + (bytes - last_size)) }
          else s
        (s, b', .ret p)
      else
        ({ s with
            m_realloc_failC := wrap64 (s.m_realloc_failC + 1),
            m_alloc_largest_fail := max s.m_alloc_largest_fail bytes },
          b', .ret 0)

/-- `AllocatorStatistic::realloc(void*, size_t, DestructorPtr, size_t)`
(lines 362-434): identical bookkeeping to the basic overload, delegating to
the object backend's destructor-taking `realloc`. -/
def AllocatorStatistic.reallocD {beta : Type} (bk : BackendOps beta) (s : Stats)
    (b : beta) (ptr bytes dtor align : Nat) : Stats × beta × BRes :=
  let s := { s with m_reallocC := wrap64 (s.m_reallocC + 1) }
  let last_size := bk.getAllocSize b ptr
  match bk.reallocD b ptr bytes dtor align with
  | (.exc e, b') =>
      ({ s with
          m_realloc_failC := wrap64 (s.m_realloc_failC + 1),
          m_alloc_largest_fail := max s.m_alloc_largest_fail bytes },
        b', .exc e)
  | (.ret p, b') =>
      let current_use := bk.getUsedBytes b'
      if p ≠ 0 then
        let s := { s with
          m_allocB := wrap64 (s.m_allocB + bytes),
          m_largest := max s.m_largest bytes,
          m_smallest := min s.m_smallest bytes,
          m_highest := max s.m_highest current_use }
        let s := if p ≠ ptr then
            { s with
              m_realloc_moveC := wrap64 (s.m_realloc_moveC + 1),
              m_realloc_moveB := wrap64 (s.m_realloc_moveB + bytes) }
          else s
        let s := if last_size > bytes then
            { s with
              m_realloc_shrinkB := wrap64 (s.m_realloc_shrinkB + (last_size - bytes)) }
          else if last_size < bytes then
            { s with
              m_realloc_growthB := wrap64 (s.m_realloc_growthB + (bytes - last_size)) }
          else s
        (s, b', .ret p)
      else
        ({ s with
            m_realloc_failC := wrap64 (s.m_realloc_failC + 1),
            m_alloc_largest_fail := max s.m_alloc_largest_fail bytes },
          b', .ret 0)

/-- `AllocatorStatistic::offer` (lines 441-449): bumps the offer call
counter and adds the size of `ptr` queried *before* delegating, then
delegates. -/
def AllocatorStatistic.offer {beta : Type} (bk : BackendOps beta) (s : Stats)
    (b : beta) (ptr priority : Nat) : Stats × beta × BRes :=
  let s := { s with
    m_offerC := wrap64 (s.m_offerC + 1),
    m_offerB := wrap64 (s.m_offerB + bk.getAllocSize b ptr) }
  match bk.offer b ptr priority with
  | (r, b') => (s, b', r)

/-- `AllocatorStatistic::reclaim` (lines 451-467): bumps the reclaim call
counter, delegates, and then either bumps the reclaim-failure counter (null
return) or adds `getAllocSize(ptr)` — queried on the post-reclaim backend
state with the *input* pointer `ptr`, exactly as line 463 does — to the
cumulative reclaimed bytes. -/
def AllocatorStatistic.reclaim {beta : Type} (bk : BackendOps beta) (s : Stats)
    (b : beta) (ptr : Nat) : Stats × beta × BRes :=
  let s := { s with m_reclaimC := wrap64 (s.m_reclaimC + 1) }
  match bk.reclaim b ptr with
  | (.exc e, b') => (s, b', .exc e)
  | (.ret p, b') =>
      if p = 0 then
        ({ s with m_reclaim_failC := wrap64 (s.m_reclaim_failC + 1) }, b', .ret 0)
      else
        ({ s with m_reclaimB := wrap64 (s.m_reclaimB + bk.getAllocSize b' ptr) },
          b', .ret p)

/-- `AllocatorStatistic::reset` (lines 469-473): calls `resetCounters` and
then delegates `reset` to the backend. -/
def AllocatorStatistic.reset {beta : Type} (bk : BackendOps beta) (s : Stats)
    (b : beta) : Stats × beta :=
  (s.resetCounters, bk.reset b)

/-- `AllocatorStatistic::purge` (lines 475-478): pure delegation, no counter
is touched. -/
def AllocatorStatistic.purge {beta : Type} (bk : BackendOps beta) (s : Stats)
    (b : beta) (priority : Nat) : Stats × beta :=
  (s, bk.purge b priority)

/-- `AllocatorStatistic::clear` (lines 480-484): calls `resetCounters` and
then delegates `clear` to the backend. -/
def AllocatorStatistic.clear {beta : Type} (bk : BackendOps beta) (s : Stats)
    (b : beta) : Stats × beta :=
  (s.resetCounters, bk.clear b)

/-- `AllocatorStatistic::resetCounters` as a proxy operation: touches only
the proxy's own counters (lines 147-167 mention no backing member). -/
def AllocatorStatistic.resetCounters {beta : Type} (_bk : BackendOps beta)
    (s : Stats) (b : beta) : Stats × beta :=
  (s.resetCounters, b)

/-- One call on the proxy's mutating/forwarding interface, with its
arguments (pointers, sizes, priorities, destructor ids as `Nat`). -/
inductive AllocOp : Type where
  | alloc (bytes align : Nat)
  | allocD (bytes dtor align : Nat)
  | free (ptr : Nat)
  | realloc (ptr bytes align : Nat)
  | reallocD (ptr bytes dtor align : Nat)
  | offer (ptr priority : Nat)
  | reclaim (ptr : Nat)
  | purge (priority : Nat)
  | reset
  | clear
  | resetCounters
deriving DecidableEq, Repr

/-- The three proxy operations whose body invokes
`AllocatorStatistic::resetCounters` (directly, or first thing in `reset`
and `clear`). -/
def AllocOp.isCounterReset : AllocOp → Bool
  | .reset | .clear | .resetCounters => true
  | _ => false

/-- Effect of one proxy call on the pair (counter state, backend state),
dispatching to the operation definitions above and discarding the value
returned to the caller. -/
def AllocatorStatistic.step {beta : Type} (bk : BackendOps beta) (s : Stats)
    (b : beta) : AllocOp → Stats × beta
  | .alloc bytes align =>
      let r := AllocatorStatistic.alloc bk s b bytes align
      (r.1, r.2.1)
  | .allocD bytes dtor align =>
      let r := AllocatorStatistic.allocD bk s b bytes dtor align
      (r.1, r.2.1)
  | .free ptr => AllocatorStatistic.free bk s b ptr
  | .realloc ptr bytes align =>
      let r := AllocatorStatistic.realloc bk s b ptr bytes align
      (r.1, r.2.1)
  | .reallocD ptr bytes dtor align =>
      let r := AllocatorStatistic.reallocD bk s b ptr bytes dtor align
      (r.1, r.2.1)
  | .offer ptr priority =>
      let r := AllocatorStatistic.offer bk s b ptr priority
      (r.1, r.2.1)
  | .reclaim ptr =>
      let r := AllocatorStatistic.reclaim bk s b ptr
      (r.1, r.2.1)
  | .purge priority => AllocatorStatistic.purge bk s b priority
  | .reset => AllocatorStatistic.reset bk s b
  | .clear => AllocatorStatistic.clear bk s b
  | .resetCounters => AllocatorStatistic.resetCounters bk s b

/-- Run a sequence of proxy calls left to right. -/
def AllocatorStatistic.run {beta : Type} (bk : BackendOps beta) :
    Stats × beta → List AllocOp → Stats × beta
  | sb, [] => sb
  | (s, b), op :: rest =>
      AllocatorStatistic.run bk (AllocatorStatistic.step bk s b op) rest

/-- One `alloc` call through the proxy: either the basic overload or the
destructor-taking object overload. -/
inductive AllocEv : Type where
  | basic (bytes align : Nat)
  | obj (bytes dtor align : Nat)
deriving DecidableEq, Repr

/-- Requested size of an `alloc` call. -/
def AllocEv.bytes : AllocEv → Nat
  | .basic bytes _ => bytes
  | .obj bytes _ _ => bytes

/-- Run a sequence consisting only of `alloc` calls. -/
def AllocatorStatistic.runAllocs {beta : Type} (bk : BackendOps beta) :
    Stats × beta → List AllocEv → Stats × beta
  | sb, [] => sb
  | (s, b), .basic bytes align :: rest =>
      let r := AllocatorStatistic.alloc bk s b bytes align
      AllocatorStatistic.runAllocs bk (r.1, r.2.1) rest
  | (s, b), .obj bytes dtor align :: rest =>
      let r := AllocatorStatistic.allocD bk s b bytes dtor align
      AllocatorStatistic.runAllocs bk (r.1, r.2.1) rest

/-- Number of `alloc` calls in the sequence on which the backend returns a
non-null pointer ("successes", in the spec's words). -/
def succCount {beta : Type} (bk : BackendOps beta) : beta → List AllocEv → Nat
  | _, [] => 0
  | b, .basic bytes align :: rest =>
      let r := bk.alloc b bytes align
      (if r.1.isSucc then 1 else 0) + succCount bk r.2 rest
  | b, .obj bytes dtor align :: rest =>
      let r := bk.allocD b bytes dtor align
      (if r.1.isSucc then 1 else 0) + succCount bk r.2 rest

/-- Number of `alloc` calls in the sequence on which the backend returns
null or raises ("failures", in the spec's words). -/
def failCount {beta : Type} (bk : BackendOps beta) : beta → List AllocEv → Nat
  | _, [] => 0
  | b, .basic bytes align :: rest =>
      let r := bk.alloc b bytes align
      (if r.1.isSucc then 0 else 1) + failCount bk r.2 rest
  | b, .obj bytes dtor align :: rest =>
      let r := bk.allocD b bytes dtor align
      (if r.1.isSucc then 0 else 1) + failCount bk r.2 rest

/-- Does the backend answer every `alloc` call of the sequence with a
non-null pointer? -/
def allSucc {beta : Type} (bk : BackendOps beta) : beta → List AllocEv → Bool
  | _, [] => true
  | b, .basic bytes align :: rest =>
      let r := bk.alloc b bytes align
      r.1.isSucc && allSucc bk r.2 rest
  | b, .obj bytes dtor align :: rest =>
      let r := bk.allocD b bytes dtor align
      r.1.isSucc && allSucc bk r.2 rest

/-- Stateless test backend over `Unit`: `alloc`/`allocD`/`offer` return the
pointer `allocP`, `realloc`/`reallocD` return `reallocP`, `reclaim` returns
`reclaimP`, and `getAllocSize` answers `sizeF p` for a queried pointer `p`.
Used to instantiate the universally quantified theorems at concrete
backends. -/
def bkFun (allocP : Nat) (sizeF : Nat → Nat) (reallocP reclaimP : Nat) :
    BackendOps Unit where
  alloc := fun b _ _ => (.ret allocP, b)
  allocD := fun b _ _ _ => (.ret allocP, b)
  free := fun b _ => b
  realloc := fun b _ _ _ => (.ret reallocP, b)
  reallocD := fun b _ _ _ _ => (.ret reallocP, b)
  getAllocSize := fun _ p => sizeF p
  offer := fun b _ _ => (.ret allocP, b)
  reclaim := fun b _ => (.ret reclaimP, b)
  reset := fun b => b
  purge := fun b _ => b
  clear := fun b => b
  getUsedBytes := fun _ => 0
  getFreeBytes := fun _ => 0
  getPendingBytes := fun _ => 0
  getTotalBytes := fun _ => 0

/-- Test backend over `Nat` (a call counter): every allocation entry point
raises the exception identified by `e` on odd states and returns pointer 1
on even states, advancing the state. -/
def bkAlt (e : Nat) : BackendOps Nat where
  alloc := fun b _ _ => (if b % 2 = 0 then .ret 1 else .exc e, b + 1)
  allocD := fun b _ _ _ => (if b % 2 = 0 then .ret 1 else .exc e, b + 1)
  free := fun b _ => b
  realloc := fun b _ _ _ => (if b % 2 = 0 then .ret 1 else .exc e, b + 1)
  reallocD := fun b _ _ _ _ => (if b % 2 = 0 then .ret 1 else .exc e, b + 1)
  getAllocSize := fun _ _ => 0
  offer := fun b _ _ => (.ret 1, b)
  reclaim := fun b _ => (.ret 1, b)
  reset := fun b => b
  purge := fun b _ => b
  clear := fun b => b
  getUsedBytes := fun _ => 0
  getFreeBytes := fun _ => 0
  getPendingBytes := fun _ => 0
  getTotalBytes := fun _ => 0

/-- Sufficient no-wrap-around condition for one proxy operation: every
`fetch_add` the operation can perform stays below `SIZE_MOD` (using that a
shrink delta is at most the backend-reported old size and a growth delta
at most the requested size). -/
def StepBounded {beta : Type} (bk : BackendOps beta) (b : beta) (s : Stats) :
    AllocOp → Prop
  | .alloc bytes _ =>
      s.m_allocC + 1 < SIZE_MOD ∧ s.m_allocB + bytes < SIZE_MOD ∧
        s.m_alloc_failC + 1 < SIZE_MOD
  | .allocD bytes _ _ =>
      s.m_allocC + 1 < SIZE_MOD ∧ s.m_allocB + bytes < SIZE_MOD ∧
        s.m_alloc_failC + 1 < SIZE_MOD
  | .free _ => True
  | .realloc ptr bytes _ =>
      s.m_reallocC + 1 < SIZE_MOD ∧ s.m_allocB + bytes < SIZE_MOD ∧
        s.m_realloc_failC + 1 < SIZE_MOD ∧ s.m_realloc_moveC + 1 < SIZE_MOD ∧
        s.m_realloc_moveB + bytes < SIZE_MOD ∧
        s.m_realloc_shrinkB + bk.getAllocSize b ptr < SIZE_MOD ∧
        s.m_realloc_growthB + bytes < SIZE_MOD
  | .reallocD ptr bytes _ _ =>
      s.m_reallocC + 1 < SIZE_MOD ∧ s.m_allocB + bytes < SIZE_MOD ∧
        s.m_realloc_failC + 1 < SIZE_MOD ∧ s.m_realloc_moveC + 1 < SIZE_MOD ∧
        s.m_realloc_moveB + bytes < SIZE_MOD ∧
        s.m_realloc_shrinkB + bk.getAllocSize b ptr < SIZE_MOD ∧
        s.m_realloc_growthB + bytes < SIZE_MOD
  | .offer ptr _ =>
      s.m_offerC + 1 < SIZE_MOD ∧
        s.m_offerB + bk.getAllocSize b ptr < SIZE_MOD
  | .reclaim ptr =>
      s.m_reclaimC + 1 < SIZE_MOD ∧ s.m_reclaim_failC + 1 < SIZE_MOD ∧
        s.m_reclaimB + bk.getAllocSize (bk.reclaim b ptr).2 ptr < SIZE_MOD
  | .purge _ => True
  | .reset => True
  | .clear => True
  | .resetCounters => True

/-- Each of the 17 statistics read accessors other than
`getSmallestAlloc` did not decrease between the two counter states. -/
def MonotoneExceptSmallest (s s' : Stats) : Prop :=
  AllocatorStatistic.getHighestUsage s ≤ AllocatorStatistic.getHighestUsage s' ∧
  AllocatorStatistic.getLargestAlloc s ≤ AllocatorStatistic.getLargestAlloc s' ∧
  AllocatorStatistic.getTotalAllocs s ≤ AllocatorStatistic.getTotalAllocs s' ∧
  AllocatorStatistic.getTotalAllocFails s ≤ AllocatorStatistic.getTotalAllocFails s' ∧
  AllocatorStatistic.getLargestAllocFailed s ≤ AllocatorStatistic.getLargestAllocFailed s' ∧
  AllocatorStatistic.getTotalAllocBytes s ≤ AllocatorStatistic.getTotalAllocBytes s' ∧
  AllocatorStatistic.getTotalReallocs s ≤ AllocatorStatistic.getTotalReallocs s' ∧
  AllocatorStatistic.getTotalReallocFails s ≤ AllocatorStatistic.getTotalReallocFails s' ∧
  AllocatorStatistic.getTotalReallocGrowth s ≤ AllocatorStatistic.getTotalReallocGrowth s' ∧
  AllocatorStatistic.getTotalReallocShrink s ≤ AllocatorStatistic.getTotalReallocShrink s' ∧
  AllocatorStatistic.getTotalReallocMoves s ≤ AllocatorStatistic.getTotalReallocMoves s' ∧
  AllocatorStatistic.getTotalReallocMoved s ≤ AllocatorStatistic.getTotalReallocMoved s' ∧
  AllocatorStatistic.getTotalOffers s ≤ AllocatorStatistic.getTotalOffers s' ∧
  AllocatorStatistic.getTotalOfferBytes s ≤ AllocatorStatistic.getTotalOfferBytes s' ∧
  AllocatorStatistic.getTotalReclaims s ≤ AllocatorStatistic.getTotalReclaims s' ∧
  AllocatorStatistic.getTotalReclaimFails s ≤ AllocatorStatistic.getTotalReclaimFails s' ∧
  AllocatorStatistic.getTotalReclaimBytes s ≤ AllocatorStatistic.getTotalReclaimBytes s'

/- Helper lemmas about the per-operation counter updates. -/

/-- A wrapped addition that does not overflow is plain addition. -/
lemma wrap64_eq {n : Nat} (h : n < SIZE_MOD) : wrap64 n = n :=
  Nat.mod_eq_of_lt h

/-- `alloc` bumps `m_allocC` on every path. -/
lemma alloc_fst_allocC {beta : Type} (bk : BackendOps beta) (s : Stats)
    (b : beta) (bytes align : Nat) :
    (AllocatorStatistic.alloc bk s b bytes align).1.m_allocC =
      wrap64 (s.m_allocC + 1) := by
  unfold AllocatorStatistic.alloc
  rcases h : bk.alloc b bytes align with ⟨p | e, b'⟩ <;> simp [h] <;> split <;> rfl

/-- `alloc` leaves `m_alloc_failC` alone exactly on a successful return. -/
lemma alloc_fst_failC {beta : Type} (bk : BackendOps beta) (s : Stats)
    (b : beta) (bytes align : Nat) :
    (AllocatorStatistic.alloc bk s b bytes align).1.m_alloc_failC =
      if (bk.alloc b bytes align).1.isSucc then s.m_alloc_failC
      else wrap64 (s.m_alloc_failC + 1) := by
  unfold AllocatorStatistic.alloc
  rcases h : bk.alloc b bytes align with ⟨p | e, b'⟩
  · by_cases hp : p = 0 <;> simp [h, hp, BRes.isSucc]
  · simp [h, BRes.isSucc]

/-- The backend state after the proxy's `alloc` is the backend state after
the delegated `alloc`. -/
lemma alloc_snd_fst {beta : Type} (bk : BackendOps beta) (s : Stats)
    (b : beta) (bytes align : Nat) :
    (AllocatorStatistic.alloc bk s b bytes align).2.1 =
      (bk.alloc b bytes align).2 := by
  unfold AllocatorStatistic.alloc
  rcases h : bk.alloc b bytes align with ⟨p | e, b'⟩ <;> simp [h] <;> split <;> rfl

/-- `alloc` lowers `m_smallest` to `min` with the requested size exactly on
a successful return. -/
lemma alloc_fst_smallest {beta : Type} (bk : BackendOps beta) (s : Stats)
    (b : beta) (bytes align : Nat) :
    (AllocatorStatistic.alloc bk s b bytes align).1.m_smallest =
      if (bk.alloc b bytes align).1.isSucc then min s.m_smallest bytes
      else s.m_smallest := by
  unfold AllocatorStatistic.alloc
  rcases h : bk.alloc b bytes align with ⟨p | e, b'⟩
  · by_cases hp : p = 0 <;> simp [h, hp, BRes.isSucc]
  · simp [h, BRes.isSucc]

/-- `alloc` raises `m_largest` to `max` with the requested size exactly on
a successful return. -/
lemma alloc_fst_largest {beta : Type} (bk : BackendOps beta) (s : Stats)
    (b : beta) (bytes align : Nat) :
    (AllocatorStatistic.alloc bk s b bytes align).1.m_largest =
      if (bk.alloc b bytes align).1.isSucc then max s.m_largest bytes
      else s.m_largest := by
  unfold AllocatorStatistic.alloc
  rcases h : bk.alloc b bytes align with ⟨p | e, b'⟩
  · by_cases hp : p = 0 <;> simp [h, hp, BRes.isSucc]
  · simp [h, BRes.isSucc]

/-- `allocD` bumps `m_allocC` on every path. -/
lemma allocD_fst_allocC {beta : Type} (bk : BackendOps beta) (s : Stats)
    (b : beta) (bytes dtor align : Nat) :
    (AllocatorStatistic.allocD bk s b bytes dtor align).1.m_allocC =
      wrap64 (s.m_allocC + 1) := by
  unfold AllocatorStatistic.allocD
  rcases h : bk.allocD b bytes dtor align with ⟨p | e, b'⟩ <;> simp [h] <;>
    split <;> rfl

/-- `allocD` leaves `m_alloc_failC` alone exactly on a successful return. -/
lemma allocD_fst_failC {beta : Type} (bk : BackendOps beta) (s : Stats)
    (b : beta) (bytes dtor align : Nat) :
    (AllocatorStatistic.allocD bk s b bytes dtor align).1.m_alloc_failC =
      if (bk.allocD b bytes dtor align).1.isSucc then s.m_alloc_failC
      else wrap64 (s.m_alloc_failC + 1) := by
  unfold AllocatorStatistic.allocD
  rcases h : bk.allocD b bytes dtor align with ⟨p | e, b'⟩
  · by_cases hp : p = 0 <;> simp [h, hp, BRes.isSucc]
  · simp [h, BRes.isSucc]

/-- The backend state after the proxy's `allocD` is the backend state after
the delegated `alloc`. -/
lemma allocD_snd_fst {beta : Type} (bk : BackendOps beta) (s : Stats)
    (b : beta) (bytes dtor align : Nat) :
    (AllocatorStatistic.allocD bk s b bytes dtor align).2.1 =
      (bk.allocD b bytes dtor align).2 := by
  unfold AllocatorStatistic.allocD
  rcases h : bk.allocD b bytes dtor align with ⟨p | e, b'⟩ <;> simp [h] <;>
    split <;> rfl

/-- `allocD` lowers `m_smallest` to `min` with the requested size exactly
on a successful return. -/
lemma allocD_fst_smallest {beta : Type} (bk : BackendOps beta) (s : Stats)
    (b : beta) (bytes dtor align : Nat) :
    (AllocatorStatistic.allocD bk s b bytes dtor align).1.m_smallest =
      if (bk.allocD b bytes dtor align).1.isSucc then min s.m_smallest bytes
      else s.m_smallest := by
  unfold AllocatorStatistic.allocD
  rcases h : bk.allocD b bytes dtor align with ⟨p | e, b'⟩
  · by_cases hp : p = 0 <;> simp [h, hp, BRes.isSucc]
  · simp [h, BRes.isSucc]

/-- `allocD` raises `m_largest` to `max` with the requested size exactly on
a successful return. -/
lemma allocD_fst_largest {beta : Type} (bk : BackendOps beta) (s : Stats)
    (b : beta) (bytes dtor align : Nat) :
    (AllocatorStatistic.allocD bk s b bytes dtor align).1.m_largest =
      if (bk.allocD b bytes dtor align).1.isSucc then max s.m_largest bytes
      else s.m_largest := by
  unfold AllocatorStatistic.allocD
  rcases h : bk.allocD b bytes dtor align with ⟨p | e, b'⟩
  · by_cases hp : p = 0 <;> simp [h, hp, BRes.isSucc]
  · simp [h, BRes.isSucc]

/-- `realloc` only ever changes `m_smallest` by a `min` with the requested
size (and only on the success path). -/
lemma realloc_fst_smallest {beta : Type} (bk : BackendOps beta) (s : Stats)
    (b : beta) (ptr bytes align : Nat) :
    (AllocatorStatistic.realloc bk s b ptr bytes align).1.m_smallest =
      if (bk.realloc b ptr bytes align).1.isSucc then min s.m_smallest bytes
      else s.m_smallest := by
  unfold AllocatorStatistic.realloc
  rcases h : bk.realloc b ptr bytes align with ⟨p | e, b'⟩
  · by_cases hp : p = 0 <;>
      simp [h, hp, BRes.isSucc, apply_ite Stats.m_smallest, ite_self]
  · simp [h, BRes.isSucc]

/-- `reallocD` only ever changes `m_smallest` by a `min` with the requested
size (and only on the success path). -/
lemma reallocD_fst_smallest {beta : Type} (bk : BackendOps beta) (s : Stats)
    (b : beta) (ptr bytes dtor align : Nat) :
    (AllocatorStatistic.reallocD bk s b ptr bytes dtor align).1.m_smallest =
      if (bk.reallocD b ptr bytes dtor align).1.isSucc then min s.m_smallest bytes
      else s.m_smallest := by
  unfold AllocatorStatistic.reallocD
  rcases h : bk.reallocD b ptr bytes dtor align with ⟨p | e, b'⟩
  · by_cases hp : p = 0 <;>
      simp [h, hp, BRes.isSucc, apply_ite Stats.m_smallest, ite_self]
  · simp [h, BRes.isSucc]

/-- `offer` does not touch `m_smallest`. -/
lemma offer_fst_smallest {beta : Type} (bk : BackendOps beta) (s : Stats)
    (b : beta) (ptr priority : Nat) :
    (AllocatorStatistic.offer bk s b ptr priority).1.m_smallest =
      s.m_smallest := by
  unfold AllocatorStatistic.offer
  rcases h : bk.offer b ptr priority with ⟨r, b'⟩
  simp [h]

/-- `reclaim` does not touch `m_smallest`. -/
lemma reclaim_fst_smallest {beta : Type} (bk : BackendOps beta) (s : Stats)
    (b : beta) (ptr : Nat) :
    (AllocatorStatistic.reclaim bk s b ptr).1.m_smallest = s.m_smallest := by
  unfold AllocatorStatistic.reclaim
  rcases h : bk.reclaim b ptr with ⟨p | e, b'⟩
  · by_cases hp : p = 0 <;> simp [h, hp]
  · simp [h]

/- List fold helpers for extremum reasoning. -/

/-- Every member is below the `foldr max`. -/
lemma mem_le_foldr_max (l : List Nat) (x : Nat) (hx : x ∈ l) :
    x ≤ l.foldr max 0 := by
  induction l with
  | nil => cases hx
  | cons a t ih =>
    rcases List.mem_cons.mp hx with rfl | hxt
    · exact le_max_left _ _
    · exact le_trans (ih hxt) (le_max_right _ _)

/-- The `foldr max 0` of a nonempty list is one of its members. -/
lemma foldr_max_mem (l : List Nat) (h : l ≠ []) : l.foldr max 0 ∈ l := by
  induction l with
  | nil => exact absurd rfl h
  | cons a t ih =>
    cases t with
    | nil => simp
    | cons b t' =>
      rcases le_total ((b :: t').foldr max 0) a with hle | hle
      · rw [List.foldr_cons, max_eq_left hle]
        exact List.mem_cons_self _ _
      · rw [List.foldr_cons, max_eq_right hle]
        exact List.mem_cons_of_mem _ (ih (by simp))

/-- The `foldr min` is below every member. -/
lemma foldr_min_le_mem (B : Nat) (l : List Nat) (x : Nat) (hx : x ∈ l) :
    l.foldr min B ≤ x := by
  induction l with
  | nil => cases hx
  | cons a t ih =>
    rcases List.mem_cons.mp hx with rfl | hxt
    · exact min_le_left _ _
    · exact le_trans (min_le_right _ _) (ih hxt)

/-- The `foldr min` is below its base. -/
lemma foldr_min_le_base (B : Nat) (l : List Nat) : l.foldr min B ≤ B := by
  induction l with
  | nil => exact le_refl _
  | cons a t ih => exact le_trans (min_le_right _ _) ih

/-- The `foldr min B` of a nonempty list of members all bounded by `B` is
one of the members. -/
lemma foldr_min_mem (B : Nat) (l : List Nat) (h : l ≠ [])
    (hb : ∀ x ∈ l, x ≤ B) : l.foldr min B ∈ l := by
  induction l with
  | nil => exact absurd rfl h
  | cons a t ih =>
    cases t with
    | nil =>
      simp only [List.foldr_cons, List.foldr_nil]
      rw [min_eq_left (hb a (List.mem_cons_self _ _))]
      exact List.mem_cons_self _ _
    | cons b t' =>
      rcases le_total a ((b :: t').foldr min B) with hle | hle
      · rw [List.foldr_cons, min_eq_left hle]
        exact List.mem_cons_self _ _
      · rw [List.foldr_cons, min_eq_right hle]
        refine List.mem_cons_of_mem _ (ih (by simp) ?_)
        intro x hxm
        exact hb x (List.mem_cons_of_mem _ hxm)

/- Sequence-level lemmas about runs of `alloc` calls. -/

/-- Successes and failures partition the calls of an `alloc` sequence. -/
lemma succCount_add_failCount {beta : Type} (bk : BackendOps beta) :
    ∀ (l : List AllocEv) (b : beta),
      succCount bk b l + failCount bk b l = l.length := by
  intro l
  induction l with
  | nil => intro b; rfl
  | cons ev rest ih =>
    intro b
    cases ev with
    | basic bytes align =>
      simp only [succCount, failCount, List.length_cons]
      have hrec := ih (bk.alloc b bytes align).2
      rcases Bool.eq_false_or_eq_true (bk.alloc b bytes align).1.isSucc with h | h <;>
        simp [h] <;> omega
    | obj bytes dtor align =>
      simp only [succCount, failCount, List.length_cons]
      have hrec := ih (bk.allocD b bytes dtor align).2
      rcases Bool.eq_false_or_eq_true (bk.allocD b bytes dtor align).1.isSucc with h | h <;>
        simp [h] <;> omega

/-- Counter bookkeeping along a sequence of `alloc` calls: the call counter
advances by the length and the failure counter by the number of
unsuccessful outcomes, as long as neither counter wraps. -/
lemma runAllocs_counts {beta : Type} (bk : BackendOps beta) :
    ∀ (l : List AllocEv) (s : Stats) (b : beta),
      s.m_allocC + l.length < SIZE_MOD →
      s.m_alloc_failC + l.length < SIZE_MOD →
      (AllocatorStatistic.runAllocs bk (s, b) l).1.m_allocC =
          s.m_allocC + l.length ∧
      (AllocatorStatistic.runAllocs bk (s, b) l).1.m_alloc_failC =
          s.m_alloc_failC + failCount bk b l := by
  intro l
  induction l with
  | nil => intro s b h1 h2; simp [AllocatorStatistic.runAllocs, failCount]
  | cons ev rest ih =>
    intro s b h1 h2
    rw [List.length_cons] at h1 h2
    cases ev with
    | basic bytes align =>
      have hC := alloc_fst_allocC bk s b bytes align
      have hF := alloc_fst_failC bk s b bytes align
      have hB := alloc_snd_fst bk s b bytes align
      have hCv : (AllocatorStatistic.alloc bk s b bytes align).1.m_allocC =
          s.m_allocC + 1 := by rw [hC]; exact wrap64_eq (by omega)
      simp only [AllocatorStatistic.runAllocs]
      rcases Bool.eq_false_or_eq_true (bk.alloc b bytes align).1.isSucc with h | h
      · have hFv : (AllocatorStatistic.alloc bk s b bytes align).1.m_alloc_failC =
            s.m_alloc_failC := by rw [hF, h]; simp
        obtain ⟨ihC, ihF⟩ := ih (AllocatorStatistic.alloc bk s b bytes align).1
          (AllocatorStatistic.alloc bk s b bytes align).2.1
          (by rw [hCv]; omega) (by rw [hFv]; omega)
        refine ⟨?_, ?_⟩
        · rw [ihC, hCv, List.length_cons]; omega
        · rw [ihF, hFv]
          simp [failCount, h, ← hB]
          try omega
      · have hFv : (AllocatorStatistic.alloc bk s b bytes align).1.m_alloc_failC =
            s.m_alloc_failC + 1 := by
          rw [hF, h]; simp; exact wrap64_eq (by omega)
        obtain ⟨ihC, ihF⟩ := ih (AllocatorStatistic.alloc bk s b bytes align).1
          (AllocatorStatistic.alloc bk s b bytes align).2.1
          (by rw [hCv]; omega) (by rw [hFv]; omega)
        refine ⟨?_, ?_⟩
        · rw [ihC, hCv, List.length_cons]; omega
        · rw [ihF, hFv]
          simp [failCount, h, ← hB]
          try omega
    | obj bytes dtor align =>
      have hC := allocD_fst_allocC bk s b bytes dtor align
      have hF := allocD_fst_failC bk s b bytes dtor align
      have hB := allocD_snd_fst bk s b bytes dtor align
      have hCv : (AllocatorStatistic.allocD bk s b bytes dtor align).1.m_allocC =
          s.m_allocC + 1 := by rw [hC]; exact wrap64_eq (by omega)
      simp only [AllocatorStatistic.runAllocs]
      rcases Bool.eq_false_or_eq_true (bk.allocD b bytes dtor align).1.isSucc with h | h
      · have hFv : (AllocatorStatistic.allocD bk s b bytes dtor align).1.m_alloc_failC =
            s.m_alloc_failC := by rw [hF, h]; simp
        obtain ⟨ihC, ihF⟩ := ih (AllocatorStatistic.allocD bk s b bytes dtor align).1
          (AllocatorStatistic.allocD bk s b bytes dtor align).2.1
          (by rw [hCv]; omega) (by rw [hFv]; omega)
        refine ⟨?_, ?_⟩
        · rw [ihC, hCv, List.length_cons]; omega
        · rw [ihF, hFv]
          simp [failCount, h, ← hB]
          try omega
      · have hFv : (AllocatorStatistic.allocD bk s b bytes dtor align).1.m_alloc_failC =
            s.m_alloc_failC + 1 := by
          rw [hF, h]; simp; exact wrap64_eq (by omega)
        obtain ⟨ihC, ihF⟩ := ih (AllocatorStatistic.allocD bk s b bytes dtor align).1
          (AllocatorStatistic.allocD bk s b bytes dtor align).2.1
          (by rw [hCv]; omega) (by rw [hFv]; omega)
        refine ⟨?_, ?_⟩
        · rw [ihC, hCv, List.length_cons]; omega
        · rw [ihF, hFv]
          simp [failCount, h, ← hB]
          try omega

/-- Extremum bookkeeping along a sequence of `alloc` calls on which the
backend always returns non-null: `m_largest` accumulates the `max` and
`m_smallest` the `min` of the requested sizes. -/
lemma runAllocs_extrema {beta : Type} (bk : BackendOps beta) :
    ∀ (l : List AllocEv) (s : Stats) (b : beta),
      allSucc bk b l = true →
      s.m_smallest ≤ SIZE_MAX →
      (AllocatorStatistic.runAllocs bk (s, b) l).1.m_largest =
          max s.m_largest ((l.map AllocEv.bytes).foldr max 0) ∧
      (AllocatorStatistic.runAllocs bk (s, b) l).1.m_smallest =
          min s.m_smallest ((l.map AllocEv.bytes).foldr min SIZE_MAX) := by
  intro l
  induction l with
  | nil =>
    intro s b _ hb
    simp [AllocatorStatistic.runAllocs, min_eq_left hb]
  | cons ev rest ih =>
    intro s b hs hb
    cases ev with
    | basic bytes align =>
      simp only [allSucc, Bool.and_eq_true] at hs
      obtain ⟨h1, h2⟩ := hs
      have hL := alloc_fst_largest bk s b bytes align
      have hS := alloc_fst_smallest bk s b bytes align
      have hBst := alloc_snd_fst bk s b bytes align
      have hLv : (AllocatorStatistic.alloc bk s b bytes align).1.m_largest =
          max s.m_largest bytes := by rw [hL, h1]; simp
      have hSv : (AllocatorStatistic.alloc bk s b bytes align).1.m_smallest =
          min s.m_smallest bytes := by rw [hS, h1]; simp
      obtain ⟨iL, iS⟩ := ih (AllocatorStatistic.alloc bk s b bytes align).1
        (AllocatorStatistic.alloc bk s b bytes align).2.1
        (by rw [hBst]; exact h2)
        (by rw [hSv]; exact le_trans (min_le_left _ _) hb)
      simp only [AllocatorStatistic.runAllocs]
      constructor
      · rw [iL, hLv, List.map_cons, List.foldr_cons]
        exact max_assoc _ _ _
      · rw [iS, hSv, List.map_cons, List.foldr_cons]
        exact min_assoc _ _ _
    | obj bytes dtor align =>
      simp only [allSucc, Bool.and_eq_true] at hs
      obtain ⟨h1, h2⟩ := hs
      have hL := allocD_fst_largest bk s b bytes dtor align
      have hS := allocD_fst_smallest bk s b bytes dtor align
      have hBst := allocD_snd_fst bk s b bytes dtor align
      have hLv : (AllocatorStatistic.allocD bk s b bytes dtor align).1.m_largest =
          max s.m_largest bytes := by rw [hL, h1]; simp
      have hSv : (AllocatorStatistic.allocD bk s b bytes dtor align).1.m_smallest =
          min s.m_smallest bytes := by rw [hS, h1]; simp
      obtain ⟨iL, iS⟩ := ih (AllocatorStatistic.allocD bk s b bytes dtor align).1
        (AllocatorStatistic.allocD bk s b bytes dtor align).2.1
        (by rw [hBst]; exact h2)
        (by rw [hSv]; exact le_trans (min_le_left _ _) hb)
      simp only [AllocatorStatistic.runAllocs]
      constructor
      · rw [iL, hLv, List.map_cons, List.foldr_cons]
        exact max_assoc _ _ _
      · rw [iS, hSv, List.map_cons, List.foldr_cons]
        exact min_assoc _ _ _

/-- Once `m_smallest` is 0, every proxy operation other than the
counter-resetting ones keeps it 0. -/
lemma run_smallest_zero {beta : Type} (bk : BackendOps beta) :
    ∀ (l : List AllocOp) (s : Stats) (b : beta),
      s.m_smallest = 0 →
      (l.all fun op => !op.isCounterReset) = true →
      (AllocatorStatistic.run bk (s, b) l).1.m_smallest = 0 := by
  intro l
  induction l with
  | nil => intro s b h0 _; exact h0
  | cons op rest ih =>
    intro s b h0 hl
    rw [List.all_cons, Bool.and_eq_true] at hl
    obtain ⟨hop, hrest⟩ := hl
    simp only [AllocatorStatistic.run]
    cases op with
    | alloc bytes align =>
      refine ih _ _ ?_ hrest
      rw [alloc_fst_smallest, h0]
      simp
    | allocD bytes dtor align =>
      refine ih _ _ ?_ hrest
      rw [allocD_fst_smallest, h0]
      simp
    | free ptr =>
      exact ih _ _ h0 hrest
    | realloc ptr bytes align =>
      refine ih _ _ ?_ hrest
      rw [realloc_fst_smallest, h0]
      simp
    | reallocD ptr bytes dtor align =>
      refine ih _ _ ?_ hrest
      rw [reallocD_fst_smallest, h0]
      simp
    | offer ptr priority =>
      refine ih _ _ ?_ hrest
      rw [offer_fst_smallest]
      exact h0
    | reclaim ptr =>
      refine ih _ _ ?_ hrest
      rw [reclaim_fst_smallest]
      exact h0
    | purge priority =>
      exact ih _ _ h0 hrest
    | reset => simp [AllocOp.isCounterReset] at hop
    | clear => simp [AllocOp.isCounterReset] at hop
    | resetCounters => simp [AllocOp.isCounterReset] at hop

/-- C1 (code evaluated at the failing input): on a backend whose `reclaim`
maps the offer token 7 to the restored handle 9, with backend sizes
`getAllocSize(7) = 3` and `getAllocSize(9) = 5`, the proxy's `reclaim`
returns handle 9 but adds 3 — the size queried with the *input token* at
line 463 — to cumulative reclaimed bytes, not 5, the size of the handle
returned after reclaim as the spec requires. -/
theorem reclaim_bytes_uses_input_token :
    (AllocatorStatistic.reclaim (bkFun 1 (fun p => if p = 9 then 5 else 3) 7 9)
        Stats.init () 7).2.2 = BRes.ret 9 ∧
    AllocatorStatistic.getTotalReclaimBytes
        (AllocatorStatistic.reclaim (bkFun 1 (fun p => if p = 9 then 5 else 3) 7 9)
          Stats.init () 7).1 = 3 ∧
    (bkFun 1 (fun p => if p = 9 then 5 else 3) 7 9).getAllocSize () 9 = 5 ∧
    (3 : Nat) ≠ 5 := by
  decide

/-- C2 counterexample: after one successful `alloc` the call counter reads
1, and the forwarded `reset()` (and likewise `clear()`) zeroes it — so it
is false that no proxy operation other than construction and
`resetCounters()` resets a counter. -/
theorem reset_zeroes_counters_cex :
    AllocatorStatistic.getTotalAllocs
        (AllocatorStatistic.alloc (bkFun 1 (fun _ => 0) 1 1) Stats.init () 4 8).1 = 1 ∧
    AllocatorStatistic.getTotalAllocs
        (AllocatorStatistic.reset (bkFun 1 (fun _ => 0) 1 1)
          (AllocatorStatistic.alloc (bkFun 1 (fun _ => 0) 1 1) Stats.init () 4 8).1 ()).1 = 0 ∧
    AllocatorStatistic.getTotalAllocs
        (AllocatorStatistic.clear (bkFun 1 (fun _ => 0) 1 1)
          (AllocatorStatistic.alloc (bkFun 1 (fun _ => 0) 1 1) Stats.init () 4 8).1 ()).1 = 0 := by
  decide

/-- C2 (amended): the proxy's counters are zeroed on construction, on an
explicit `resetCounters()`, and also by the forwarded `reset()` and
`clear()` (both of which call `resetCounters` before delegating);
`purge()` and `free()` reset no counter. -/
theorem counters_zeroed_only_by_reset_family {beta : Type}
    (bk : BackendOps beta) (s : Stats) (b : beta) (ptr priority : Nat) :
    (AllocatorStatistic.reset bk s b).1 = Stats.init ∧
    (AllocatorStatistic.clear bk s b).1 = Stats.init ∧
    (AllocatorStatistic.resetCounters bk s b).1 = Stats.init ∧
    (AllocatorStatistic.purge bk s b priority).1 = s ∧
    (AllocatorStatistic.free bk s b ptr).1 = s :=
  ⟨rfl, rfl, rfl, rfl, rfl⟩

/-- C7: `resetCounters()` leaves the backend untouched and, whatever the
counter state produced by the preceding operations, every one of the 18
statistics read accessors returns zero afterwards (with `getSmallestAlloc`
reading the no-successes-yet sentinel as 0). -/
theorem resetCounters_zeroes_all_reads {beta : Type} (bk : BackendOps beta)
    (s : Stats) (b : beta) :
    AllocatorStatistic.resetCounters bk s b = (Stats.init, b) ∧
    AllocatorStatistic.getHighestUsage (AllocatorStatistic.resetCounters bk s b).1 = 0 ∧
    AllocatorStatistic.getSmallestAlloc (AllocatorStatistic.resetCounters bk s b).1 = 0 ∧
    AllocatorStatistic.getLargestAlloc (AllocatorStatistic.resetCounters bk s b).1 = 0 ∧
    AllocatorStatistic.getTotalAllocs (AllocatorStatistic.resetCounters bk s b).1 = 0 ∧
    AllocatorStatistic.getTotalAllocFails (AllocatorStatistic.resetCounters bk s b).1 = 0 ∧
    AllocatorStatistic.getLargestAllocFailed (AllocatorStatistic.resetCounters bk s b).1 = 0 ∧
    AllocatorStatistic.getTotalAllocBytes (AllocatorStatistic.resetCounters bk s b).1 = 0 ∧
    AllocatorStatistic.getTotalReallocs (AllocatorStatistic.resetCounters bk s b).1 = 0 ∧
    AllocatorStatistic.getTotalReallocFails (AllocatorStatistic.resetCounters bk s b).1 = 0 ∧
    AllocatorStatistic.getTotalReallocGrowth (AllocatorStatistic.resetCounters bk s b).1 = 0 ∧
    AllocatorStatistic.getTotalReallocShrink (AllocatorStatistic.resetCounters bk s b).1 = 0 ∧
    AllocatorStatistic.getTotalReallocMoves (AllocatorStatistic.resetCounters bk s b).1 = 0 ∧
    AllocatorStatistic.getTotalReallocMoved (AllocatorStatistic.resetCounters bk s b).1 = 0 ∧
    AllocatorStatistic.getTotalOffers (AllocatorStatistic.resetCounters bk s b).1 = 0 ∧
    AllocatorStatistic.getTotalOfferBytes (AllocatorStatistic.resetCounters bk s b).1 = 0 ∧
    AllocatorStatistic.getTotalReclaims (AllocatorStatistic.resetCounters bk s b).1 = 0 ∧
    AllocatorStatistic.getTotalReclaimFails (AllocatorStatistic.resetCounters bk s b).1 = 0 ∧
    AllocatorStatistic.getTotalReclaimBytes (AllocatorStatistic.resetCounters bk s b).1 = 0 := by
  refine ⟨rfl, rfl, ?_, rfl, rfl, rfl, rfl, rfl, rfl, rfl, rfl, rfl, rfl, rfl,
    rfl, rfl, rfl, rfl, rfl⟩
  simp [AllocatorStatistic.getSmallestAlloc, AllocatorStatistic.resetCounters,
    Stats.resetCounters]

/-- C9: `free(handle)` and `purge(priority)` purely delegate to the backend
and leave the proxy's counter state unchanged. -/
theorem free_purge_leave_counters {beta : Type} (bk : BackendOps beta)
    (s : Stats) (b : beta) (ptr priority : Nat) :
    AllocatorStatistic.free bk s b ptr = (s, bk.free b ptr) ∧
    AllocatorStatistic.purge bk s b priority = (s, bk.purge b priority) :=
  ⟨rfl, rfl⟩

/-- C3: over every sequence of `alloc` calls starting from fresh counters,
the total-allocs counter equals backend successes plus failures, where a
raising backend call counts as a failure, and the failure counter counts
exactly the non-successful outcomes; moreover on an abnormal backend
termination either overload still increments the call and failure counters
and updates the largest-failed size before re-raising the identical
exception. -/
theorem totalAllocs_eq_successes_add_failures :
    (∀ {beta : Type} (bk : BackendOps beta) (b : beta) (l : List AllocEv),
      l.length < SIZE_MOD →
      AllocatorStatistic.getTotalAllocs
          (AllocatorStatistic.runAllocs bk (Stats.init, b) l).1 =
        succCount bk b l + failCount bk b l ∧
      AllocatorStatistic.getTotalAllocFails
          (AllocatorStatistic.runAllocs bk (Stats.init, b) l).1 =
        failCount bk b l) ∧
    (∀ {beta : Type} (bk : BackendOps beta) (s : Stats) (b : beta)
        (bytes align e : Nat) (b' : beta),
      bk.alloc b bytes align = (BRes.exc e, b') →
      AllocatorStatistic.alloc bk s b bytes align =
        ({ s with
            m_allocC := wrap64 (s.m_allocC + 1),
            m_alloc_failC := wrap64 (s.m_alloc_failC + 1),
            m_alloc_largest_fail := max s.m_alloc_largest_fail bytes },
          b', BRes.exc e)) ∧
    (∀ {beta : Type} (bk : BackendOps beta) (s : Stats) (b : beta)
        (bytes dtor align e : Nat) (b' : beta),
      bk.allocD b bytes dtor align = (BRes.exc e, b') →
      AllocatorStatistic.allocD bk s b bytes dtor align =
        ({ s with
            m_allocC := wrap64 (s.m_allocC + 1),
            m_alloc_failC := wrap64 (s.m_alloc_failC + 1),
            m_alloc_largest_fail := max s.m_alloc_largest_fail bytes },
          b', BRes.exc e)) := by
  refine ⟨?_, ?_, ?_⟩
  · intro beta bk b l hl
    obtain ⟨hC, hFc⟩ := runAllocs_counts bk l Stats.init b
      (by simpa [Stats.init] using hl) (by simpa [Stats.init] using hl)
    constructor
    · show (AllocatorStatistic.runAllocs bk (Stats.init, b) l).1.m_allocC = _
      rw [hC]
      simp [Stats.init]
      exact (succCount_add_failCount bk l b).symm
    · show (AllocatorStatistic.runAllocs bk (Stats.init, b) l).1.m_alloc_failC = _
      rw [hFc]
      simp [Stats.init]
  · intro beta bk s b bytes align e b' h
    simp [AllocatorStatistic.alloc, h]
  · intro beta bk s b bytes dtor align e b' h
    simp [AllocatorStatistic.allocD, h]

/-- C3 witness: three `alloc` calls on a backend that alternates success
and raise give totals 3 = 2 + 1. -/
theorem totalAllocs_eq_successes_add_failures_witness :
    ([AllocEv.basic 4 8, AllocEv.obj 5 0 8, AllocEv.basic 6 8].length < SIZE_MOD) ∧
    AllocatorStatistic.getTotalAllocs
        (AllocatorStatistic.runAllocs (bkAlt 42) (Stats.init, 0)
          [AllocEv.basic 4 8, AllocEv.obj 5 0 8, AllocEv.basic 6 8]).1 =
      succCount (bkAlt 42) 0 [AllocEv.basic 4 8, AllocEv.obj 5 0 8, AllocEv.basic 6 8] +
        failCount (bkAlt 42) 0 [AllocEv.basic 4 8, AllocEv.obj 5 0 8, AllocEv.basic 6 8] :=
  ⟨by decide,
    (totalAllocs_eq_successes_add_failures.1 (bkAlt 42) 0
      [AllocEv.basic 4 8, AllocEv.obj 5 0 8, AllocEv.basic 6 8] (by decide)).1⟩

/-- C4 counterexample: a single successful `alloc` of `SIZE_MAX` bytes
(the `m_smallest` sentinel value) makes `getSmallestAlloc` read 0 although
the minimum of the successful sizes is `SIZE_MAX`, falsifying the claim as
universally stated. -/
theorem smallestAlloc_sentinel_cex :
    allSucc (bkFun 1 (fun _ => 0) 1 1) () [AllocEv.basic SIZE_MAX 8] = true ∧
    AllocatorStatistic.getSmallestAlloc
        (AllocatorStatistic.runAllocs (bkFun 1 (fun _ => 0) 1 1)
          (Stats.init, ()) [AllocEv.basic SIZE_MAX 8]).1 = 0 ∧
    (0 : Nat) ≠ SIZE_MAX := by
  decide

/-- C4 (amended): for every sequence of successful `alloc` calls whose
requested sizes are valid `size_t` values, at least one of them below
`SIZE_MAX`, `getLargestAlloc()` returns the maximum requested size and
`getSmallestAlloc()` the minimum (each attained by a call of the
sequence); when there has been no successful allocation,
`getSmallestAlloc()` returns 0.  (When every successful size equals
`SIZE_MAX`, the stored minimum coincides with the sentinel and the
accessor reads 0 instead.) -/
theorem alloc_extrema_minmax :
    (∀ {beta : Type} (bk : BackendOps beta) (b : beta) (l : List AllocEv),
      allSucc bk b l = true →
      (∀ e ∈ l, AllocEv.bytes e ≤ SIZE_MAX) →
      (∃ e ∈ l, AllocEv.bytes e < SIZE_MAX) →
      (∃ e ∈ l, AllocatorStatistic.getLargestAlloc
          (AllocatorStatistic.runAllocs bk (Stats.init, b) l).1 = AllocEv.bytes e) ∧
      (∀ e ∈ l, AllocEv.bytes e ≤ AllocatorStatistic.getLargestAlloc
          (AllocatorStatistic.runAllocs bk (Stats.init, b) l).1) ∧
      (∃ e ∈ l, AllocatorStatistic.getSmallestAlloc
          (AllocatorStatistic.runAllocs bk (Stats.init, b) l).1 = AllocEv.bytes e) ∧
      (∀ e ∈ l, AllocatorStatistic.getSmallestAlloc
          (AllocatorStatistic.runAllocs bk (Stats.init, b) l).1 ≤ AllocEv.bytes e)) ∧
    (∀ {beta : Type} (bk : BackendOps beta) (b : beta),
      AllocatorStatistic.getSmallestAlloc
          (AllocatorStatistic.runAllocs bk (Stats.init, b) []).1 = 0) := by
  constructor
  · intro beta bk b l hall hub hex
    obtain ⟨iL, iS⟩ := runAllocs_extrema bk l Stats.init b hall (by simp [Stats.init])
    have hLv : (AllocatorStatistic.runAllocs bk (Stats.init, b) l).1.m_largest =
        (l.map AllocEv.bytes).foldr max 0 := by
      rw [iL]; simp [Stats.init]
    have hSv : (AllocatorStatistic.runAllocs bk (Stats.init, b) l).1.m_smallest =
        (l.map AllocEv.bytes).foldr min SIZE_MAX := by
      rw [iS]
      have : Stats.init.m_smallest = SIZE_MAX := rfl
      rw [this]
      exact min_eq_right (foldr_min_le_base _ _)
    obtain ⟨e0, he0l, he0⟩ := hex
    have hne : l ≠ [] := by intro hl0; rw [hl0] at he0l; cases he0l
    have hmapne : l.map AllocEv.bytes ≠ [] := by simpa using hne
    have hflt : (l.map AllocEv.bytes).foldr min SIZE_MAX < SIZE_MAX :=
      lt_of_le_of_lt
        (foldr_min_le_mem SIZE_MAX _ _ (List.mem_map_of_mem _ he0l)) he0
    have hacc : AllocatorStatistic.getSmallestAlloc
        (AllocatorStatistic.runAllocs bk (Stats.init, b) l).1 =
        (l.map AllocEv.bytes).foldr min SIZE_MAX := by
      unfold AllocatorStatistic.getSmallestAlloc
      rw [hSv]
      exact if_pos (Nat.ne_of_lt hflt)
    refine ⟨?_, ?_, ?_, ?_⟩
    · obtain ⟨e, hel, hev⟩ := List.mem_map.mp (foldr_max_mem _ hmapne)
      refine ⟨e, hel, ?_⟩
      unfold AllocatorStatistic.getLargestAlloc
      rw [hLv]
      exact hev.symm
    · intro e hel
      unfold AllocatorStatistic.getLargestAlloc
      rw [hLv]
      exact mem_le_foldr_max _ _ (List.mem_map_of_mem _ hel)
    · obtain ⟨e, hel, hev⟩ := List.mem_map.mp
        (foldr_min_mem SIZE_MAX _ hmapne (by
          intro x hx
          obtain ⟨e, hel, rfl⟩ := List.mem_map.mp hx
          exact hub e hel))
      refine ⟨e, hel, ?_⟩
      rw [hacc]
      exact hev.symm
    · intro e hel
      rw [hacc]
      exact foldr_min_le_mem SIZE_MAX _ _ (List.mem_map_of_mem _ hel)
  · intro beta bk b
    simp [AllocatorStatistic.runAllocs, AllocatorStatistic.getSmallestAlloc,
      Stats.init]

/-- C4 witness: two successful allocations of sizes 5 and 3. -/
theorem alloc_extrema_minmax_witness :
    (allSucc (bkFun 1 (fun _ => 0) 1 1) ()
        [AllocEv.basic 5 8, AllocEv.basic 3 8] = true) ∧
    ((∃ e ∈ [AllocEv.basic 5 8, AllocEv.basic 3 8],
        AllocatorStatistic.getLargestAlloc
          (AllocatorStatistic.runAllocs (bkFun 1 (fun _ => 0) 1 1)
            (Stats.init, ()) [AllocEv.basic 5 8, AllocEv.basic 3 8]).1 =
          AllocEv.bytes e) ∧
      (∀ e ∈ [AllocEv.basic 5 8, AllocEv.basic 3 8],
        AllocEv.bytes e ≤ AllocatorStatistic.getLargestAlloc
          (AllocatorStatistic.runAllocs (bkFun 1 (fun _ => 0) 1 1)
            (Stats.init, ()) [AllocEv.basic 5 8, AllocEv.basic 3 8]).1) ∧
      (∃ e ∈ [AllocEv.basic 5 8, AllocEv.basic 3 8],
        AllocatorStatistic.getSmallestAlloc
          (AllocatorStatistic.runAllocs (bkFun 1 (fun _ => 0) 1 1)
            (Stats.init, ()) [AllocEv.basic 5 8, AllocEv.basic 3 8]).1 =
          AllocEv.bytes e) ∧
      (∀ e ∈ [AllocEv.basic 5 8, AllocEv.basic 3 8],
        AllocatorStatistic.getSmallestAlloc
          (AllocatorStatistic.runAllocs (bkFun 1 (fun _ => 0) 1 1)
            (Stats.init, ()) [AllocEv.basic 5 8, AllocEv.basic 3 8]).1 ≤
          AllocEv.bytes e)) :=
  ⟨by decide,
    alloc_extrema_minmax.1 (bkFun 1 (fun _ => 0) 1 1) ()
      [AllocEv.basic 5 8, AllocEv.basic 3 8] (by decide) (by decide) (by decide)⟩

/-- C5: a successful non-relocating `realloc` from backend-reported size A
to requested size B adds exactly B − A to the growth counter when B > A
(shrink unchanged), exactly A − B to the shrink counter when B < A (growth
unchanged), and changes neither when B = A, absent counter wrap-around. -/
theorem realloc_growth_shrink_exact {beta : Type} (bk : BackendOps beta)
    (s : Stats) (b : beta) (ptr bytes align : Nat) (b' : beta)
    (hre : bk.realloc b ptr bytes align = (BRes.ret ptr, b'))
    (hp : ptr ≠ 0)
    (hg : s.m_realloc_growthB + bytes < SIZE_MOD)
    (hs : s.m_realloc_shrinkB + bk.getAllocSize b ptr < SIZE_MOD) :
    (bk.getAllocSize b ptr < bytes →
      AllocatorStatistic.getTotalReallocGrowth
          (AllocatorStatistic.realloc bk s b ptr bytes align).1 =
        AllocatorStatistic.getTotalReallocGrowth s +
          (bytes - bk.getAllocSize b ptr) ∧
      AllocatorStatistic.getTotalReallocShrink
          (AllocatorStatistic.realloc bk s b ptr bytes align).1 =
        AllocatorStatistic.getTotalReallocShrink s) ∧
    (bytes < bk.getAllocSize b ptr →
      AllocatorStatistic.getTotalReallocShrink
          (AllocatorStatistic.realloc bk s b ptr bytes align).1 =
        AllocatorStatistic.getTotalReallocShrink s +
          (bk.getAllocSize b ptr - bytes) ∧
      AllocatorStatistic.getTotalReallocGrowth
          (AllocatorStatistic.realloc bk s b ptr bytes align).1 =
        AllocatorStatistic.getTotalReallocGrowth s) ∧
    (bytes = bk.getAllocSize b ptr →
      AllocatorStatistic.getTotalReallocGrowth
          (AllocatorStatistic.realloc bk s b ptr bytes align).1 =
        AllocatorStatistic.getTotalReallocGrowth s ∧
      AllocatorStatistic.getTotalReallocShrink
          (AllocatorStatistic.realloc bk s b ptr bytes align).1 =
        AllocatorStatistic.getTotalReallocShrink s) := by
  unfold AllocatorStatistic.realloc
  simp only [hre, hp, ne_eq, not_false_eq_true, if_true, ite_not, if_neg,
    not_true_eq_false, if_false]
  refine ⟨fun h => ?_, fun h => ?_, fun h => ?_⟩
  · rw [if_neg (by omega : ¬ bk.getAllocSize b ptr > bytes), if_pos h]
    exact ⟨wrap64_eq (by omega), rfl⟩
  · rw [if_pos (by omega : bk.getAllocSize b ptr > bytes)]
    exact ⟨wrap64_eq (by omega), rfl⟩
  · rw [if_neg (by omega : ¬ bk.getAllocSize b ptr > bytes),
      if_neg (by omega : ¬ bk.getAllocSize b ptr < bytes)]
    exact ⟨rfl, rfl⟩

/-- C5 witness: an in-place `realloc` of block 7 from backend size 4 to
requested size 6 on a concrete backend. -/
theorem realloc_growth_shrink_exact_witness :
    ((bkFun 1 (fun _ => 4) 7 9).getAllocSize () 7 < 6 →
      AllocatorStatistic.getTotalReallocGrowth
          (AllocatorStatistic.realloc (bkFun 1 (fun _ => 4) 7 9)
            Stats.init () 7 6 8).1 =
        AllocatorStatistic.getTotalReallocGrowth Stats.init +
          (6 - (bkFun 1 (fun _ => 4) 7 9).getAllocSize () 7) ∧
      AllocatorStatistic.getTotalReallocShrink
          (AllocatorStatistic.realloc (bkFun 1 (fun _ => 4) 7 9)
            Stats.init () 7 6 8).1 =
        AllocatorStatistic.getTotalReallocShrink Stats.init) ∧
    (6 < (bkFun 1 (fun _ => 4) 7 9).getAllocSize () 7 →
      AllocatorStatistic.getTotalReallocShrink
          (AllocatorStatistic.realloc (bkFun 1 (fun _ => 4) 7 9)
            Stats.init () 7 6 8).1 =
        AllocatorStatistic.getTotalReallocShrink Stats.init +
          ((bkFun 1 (fun _ => 4) 7 9).getAllocSize () 7 - 6) ∧
      AllocatorStatistic.getTotalReallocGrowth
          (AllocatorStatistic.realloc (bkFun 1 (fun _ => 4) 7 9)
            Stats.init () 7 6 8).1 =
        AllocatorStatistic.getTotalReallocGrowth Stats.init) ∧
    (6 = (bkFun 1 (fun _ => 4) 7 9).getAllocSize () 7 →
      AllocatorStatistic.getTotalReallocGrowth
          (AllocatorStatistic.realloc (bkFun 1 (fun _ => 4) 7 9)
            Stats.init () 7 6 8).1 =
        AllocatorStatistic.getTotalReallocGrowth Stats.init ∧
      AllocatorStatistic.getTotalReallocShrink
          (AllocatorStatistic.realloc (bkFun 1 (fun _ => 4) 7 9)
            Stats.init () 7 6 8).1 =
        AllocatorStatistic.getTotalReallocShrink Stats.init) :=
  realloc_growth_shrink_exact (bkFun 1 (fun _ => 4) 7 9) Stats.init () 7 6 8 ()
    rfl (by decide) (by decide) (by decide)

/-- C6: a successful `realloc` whose returned address differs from the
input handle increments the relocation counter by exactly 1 and the
relocated-bytes counter by exactly the requested size B; when the returned
address equals the input, both are unchanged (absent counter
wrap-around). -/
theorem realloc_relocation_accounting {beta : Type} (bk : BackendOps beta)
    (s : Stats) (b : beta) (ptr bytes align p : Nat) (b' : beta)
    (hre : bk.realloc b ptr bytes align = (BRes.ret p, b'))
    (hp : p ≠ 0)
    (hc : s.m_realloc_moveC + 1 < SIZE_MOD)
    (hB : s.m_realloc_moveB + bytes < SIZE_MOD) :
    (p ≠ ptr →
      AllocatorStatistic.getTotalReallocMoves
          (AllocatorStatistic.realloc bk s b ptr bytes align).1 =
        AllocatorStatistic.getTotalReallocMoves s + 1 ∧
      AllocatorStatistic.getTotalReallocMoved
          (AllocatorStatistic.realloc bk s b ptr bytes align).1 =
        AllocatorStatistic.getTotalReallocMoved s + bytes) ∧
    (p = ptr →
      AllocatorStatistic.getTotalReallocMoves
          (AllocatorStatistic.realloc bk s b ptr bytes align).1 =
        AllocatorStatistic.getTotalReallocMoves s ∧
      AllocatorStatistic.getTotalReallocMoved
          (AllocatorStatistic.realloc bk s b ptr bytes align).1 =
        AllocatorStatistic.getTotalReallocMoved s) := by
  unfold AllocatorStatistic.realloc
  simp only [hre, hp, ne_eq, not_false_eq_true, if_true]
  constructor
  · intro h
    constructor
    · show Stats.m_realloc_moveC _ = s.m_realloc_moveC + 1
      simp [apply_ite Stats.m_realloc_moveC, ite_self, h]
      exact wrap64_eq (by omega)
    · show Stats.m_realloc_moveB _ = s.m_realloc_moveB + bytes
      simp [apply_ite Stats.m_realloc_moveB, ite_self, h]
      exact wrap64_eq (by omega)
  · intro h
    constructor
    · show Stats.m_realloc_moveC _ = s.m_realloc_moveC
      simp [apply_ite Stats.m_realloc_moveC, ite_self, h]
    · show Stats.m_realloc_moveB _ = s.m_realloc_moveB
      simp [apply_ite Stats.m_realloc_moveB, ite_self, h]

/-- C6 witness: a concrete backend relocates block 3 to address 7 on a
`realloc` of 6 bytes. -/
theorem realloc_relocation_accounting_witness :
    ((7 : Nat) ≠ 3 →
      AllocatorStatistic.getTotalReallocMoves
          (AllocatorStatistic.realloc (bkFun 1 (fun _ => 4) 7 9)
            Stats.init () 3 6 8).1 =
        AllocatorStatistic.getTotalReallocMoves Stats.init + 1 ∧
      AllocatorStatistic.getTotalReallocMoved
          (AllocatorStatistic.realloc (bkFun 1 (fun _ => 4) 7 9)
            Stats.init () 3 6 8).1 =
        AllocatorStatistic.getTotalReallocMoved Stats.init + 6) ∧
    ((7 : Nat) = 3 →
      AllocatorStatistic.getTotalReallocMoves
          (AllocatorStatistic.realloc (bkFun 1 (fun _ => 4) 7 9)
            Stats.init () 3 6 8).1 =
        AllocatorStatistic.getTotalReallocMoves Stats.init ∧
      AllocatorStatistic.getTotalReallocMoved
          (AllocatorStatistic.realloc (bkFun 1 (fun _ => 4) 7 9)
            Stats.init () 3 6 8).1 =
        AllocatorStatistic.getTotalReallocMoved Stats.init) :=
  realloc_relocation_accounting (bkFun 1 (fun _ => 4) 7 9) Stats.init () 3 6 8 7 ()
    rfl (by decide) (by decide) (by decide)

/-- C10: after a successful 0-byte `alloc`, `getSmallestAlloc()` reads 0,
keeps reading 0 across any further sequence of non-counter-resetting proxy
operations, and that read is identical to the one of a freshly constructed
proxy with no successful allocation. -/
theorem zero_byte_success_pins_smallest {beta : Type} (bk : BackendOps beta)
    (s : Stats) (b : beta) (align p : Nat) (b' : beta) (l : List AllocOp)
    (halloc : bk.alloc b 0 align = (BRes.ret p, b'))
    (hp : p ≠ 0)
    (hl : (l.all fun op => !op.isCounterReset) = true) :
    AllocatorStatistic.getSmallestAlloc
        (AllocatorStatistic.alloc bk s b 0 align).1 = 0 ∧
    AllocatorStatistic.getSmallestAlloc
        (AllocatorStatistic.run bk
          ((AllocatorStatistic.alloc bk s b 0 align).1,
            (AllocatorStatistic.alloc bk s b 0 align).2.1) l).1 = 0 ∧
    AllocatorStatistic.getSmallestAlloc Stats.init = 0 := by
  have hsm : (AllocatorStatistic.alloc bk s b 0 align).1.m_smallest = 0 := by
    rw [alloc_fst_smallest]
    simp [halloc, BRes.isSucc, hp]
  refine ⟨?_, ?_, ?_⟩
  · unfold AllocatorStatistic.getSmallestAlloc
    rw [hsm]
    simp
  · have h0 := run_smallest_zero bk l (AllocatorStatistic.alloc bk s b 0 align).1
      (AllocatorStatistic.alloc bk s b 0 align).2.1 hsm hl
    unfold AllocatorStatistic.getSmallestAlloc
    rw [h0]
    simp
  · simp [AllocatorStatistic.getSmallestAlloc, Stats.init]

/-- C10 witness: a successful 0-byte allocation followed by a `free` and an
`offer` on a concrete backend. -/
theorem zero_byte_success_pins_smallest_witness :
    AllocatorStatistic.getSmallestAlloc
        (AllocatorStatistic.alloc (bkFun 1 (fun _ => 0) 1 1) Stats.init () 0 8).1 = 0 ∧
    AllocatorStatistic.getSmallestAlloc
        (AllocatorStatistic.run (bkFun 1 (fun _ => 0) 1 1)
          ((AllocatorStatistic.alloc (bkFun 1 (fun _ => 0) 1 1) Stats.init () 0 8).1,
            (AllocatorStatistic.alloc (bkFun 1 (fun _ => 0) 1 1) Stats.init () 0 8).2.1)
          [AllocOp.free 1, AllocOp.offer 2 0]).1 = 0 ∧
    AllocatorStatistic.getSmallestAlloc Stats.init = 0 :=
  zero_byte_success_pins_smallest (bkFun 1 (fun _ => 0) 1 1) Stats.init () 8 1 ()
    [AllocOp.free 1, AllocOp.offer 2 0] rfl (by decide) (by decide)

/-- C8 counterexample: two successful allocations of sizes 2 then 1 make
the `getSmallestAlloc` accessor read 2 and then 1 — a strictly decreasing
read across a single proxy operation, falsifying monotonicity for every
counter accessor. -/
theorem smallestAlloc_not_monotone_cex :
    AllocatorStatistic.getSmallestAlloc
        (AllocatorStatistic.alloc (bkFun 1 (fun _ => 0) 1 1)
          (AllocatorStatistic.alloc (bkFun 1 (fun _ => 0) 1 1)
            Stats.init () 2 8).1 () 1 8).1 <
      AllocatorStatistic.getSmallestAlloc
        (AllocatorStatistic.alloc (bkFun 1 (fun _ => 0) 1 1)
          Stats.init () 2 8).1 := by
  decide

/-- C8 (amended): for every proxy operation other than the
counter-resetting `reset()`, `clear()` and `resetCounters()`, and in the
absence of 64-bit counter wrap-around, each of the 17 statistics read
accessors other than `getSmallestAlloc` is non-decreasing across the
operation; `getSmallestAlloc` (a running minimum) is exempt, as the
counterexample requires. -/
theorem counters_monotone_per_op {beta : Type} (bk : BackendOps beta)
    (s : Stats) (b : beta) (op : AllocOp)
    (hop : op.isCounterReset = false)
    (hb : StepBounded bk b s op) :
    MonotoneExceptSmallest s (AllocatorStatistic.step bk s b op).1 := by
  cases op with
  | alloc bytes align =>
    obtain ⟨h1, h2, h3⟩ := hb
    simp only [SIZE_MOD] at h1 h2 h3
    rcases hh : bk.alloc b bytes align with ⟨p | e, b'⟩
    · by_cases hp : p = 0
      · simp only [AllocatorStatistic.step, AllocatorStatistic.alloc, hh]
        rw [if_neg (by simpa using hp)]
        simp only [MonotoneExceptSmallest, AllocatorStatistic.getHighestUsage,
          AllocatorStatistic.getLargestAlloc, AllocatorStatistic.getTotalAllocs,
          AllocatorStatistic.getTotalAllocFails, AllocatorStatistic.getLargestAllocFailed,
          AllocatorStatistic.getTotalAllocBytes, AllocatorStatistic.getTotalReallocs,
          AllocatorStatistic.getTotalReallocFails, AllocatorStatistic.getTotalReallocGrowth,
          AllocatorStatistic.getTotalReallocShrink, AllocatorStatistic.getTotalReallocMoves,
          AllocatorStatistic.getTotalReallocMoved, AllocatorStatistic.getTotalOffers,
          AllocatorStatistic.getTotalOfferBytes, AllocatorStatistic.getTotalReclaims,
          AllocatorStatistic.getTotalReclaimFails, AllocatorStatistic.getTotalReclaimBytes]
        and_intros <;> (try simp only [wrap64, SIZE_MOD]) <;> omega
      · simp only [AllocatorStatistic.step, AllocatorStatistic.alloc, hh]
        rw [if_pos hp]
        simp only [MonotoneExceptSmallest, AllocatorStatistic.getHighestUsage,
          AllocatorStatistic.getLargestAlloc, AllocatorStatistic.getTotalAllocs,
          AllocatorStatistic.getTotalAllocFails, AllocatorStatistic.getLargestAllocFailed,
          AllocatorStatistic.getTotalAllocBytes, AllocatorStatistic.getTotalReallocs,
          AllocatorStatistic.getTotalReallocFails, AllocatorStatistic.getTotalReallocGrowth,
          AllocatorStatistic.getTotalReallocShrink, AllocatorStatistic.getTotalReallocMoves,
          AllocatorStatistic.getTotalReallocMoved, AllocatorStatistic.getTotalOffers,
          AllocatorStatistic.getTotalOfferBytes, AllocatorStatistic.getTotalReclaims,
          AllocatorStatistic.getTotalReclaimFails, AllocatorStatistic.getTotalReclaimBytes]
        and_intros <;> (try simp only [wrap64, SIZE_MOD]) <;> omega
    · simp only [AllocatorStatistic.step, AllocatorStatistic.alloc, hh]
      simp only [MonotoneExceptSmallest, AllocatorStatistic.getHighestUsage,
        AllocatorStatistic.getLargestAlloc, AllocatorStatistic.getTotalAllocs,
        AllocatorStatistic.getTotalAllocFails, AllocatorStatistic.getLargestAllocFailed,
        AllocatorStatistic.getTotalAllocBytes, AllocatorStatistic.getTotalReallocs,
        AllocatorStatistic.getTotalReallocFails, AllocatorStatistic.getTotalReallocGrowth,
        AllocatorStatistic.getTotalReallocShrink, AllocatorStatistic.getTotalReallocMoves,
        AllocatorStatistic.getTotalReallocMoved, AllocatorStatistic.getTotalOffers,
        AllocatorStatistic.getTotalOfferBytes, AllocatorStatistic.getTotalReclaims,
        AllocatorStatistic.getTotalReclaimFails, AllocatorStatistic.getTotalReclaimBytes]
      and_intros <;> (try simp only [wrap64, SIZE_MOD]) <;> omega
  | allocD bytes dtor align =>
    obtain ⟨h1, h2, h3⟩ := hb
    simp only [SIZE_MOD] at h1 h2 h3
    rcases hh : bk.allocD b bytes dtor align with ⟨p | e, b'⟩
    · by_cases hp : p = 0
      · simp only [AllocatorStatistic.step, AllocatorStatistic.allocD, hh]
        rw [if_neg (by simpa using hp)]
        simp only [MonotoneExceptSmallest, AllocatorStatistic.getHighestUsage,
          AllocatorStatistic.getLargestAlloc, AllocatorStatistic.getTotalAllocs,
          AllocatorStatistic.getTotalAllocFails, AllocatorStatistic.getLargestAllocFailed,
          AllocatorStatistic.getTotalAllocBytes, AllocatorStatistic.getTotalReallocs,
          AllocatorStatistic.getTotalReallocFails, AllocatorStatistic.getTotalReallocGrowth,
          AllocatorStatistic.getTotalReallocShrink, AllocatorStatistic.getTotalReallocMoves,
          AllocatorStatistic.getTotalReallocMoved, AllocatorStatistic.getTotalOffers,
          AllocatorStatistic.getTotalOfferBytes, AllocatorStatistic.getTotalReclaims,
          AllocatorStatistic.getTotalReclaimFails, AllocatorStatistic.getTotalReclaimBytes]
        and_intros <;> (try simp only [wrap64, SIZE_MOD]) <;> omega
      · simp only [AllocatorStatistic.step, AllocatorStatistic.allocD, hh]
        rw [if_pos hp]
        simp only [MonotoneExceptSmallest, AllocatorStatistic.getHighestUsage,
          AllocatorStatistic.getLargestAlloc, AllocatorStatistic.getTotalAllocs,
          AllocatorStatistic.getTotalAllocFails, AllocatorStatistic.getLargestAllocFailed,
          AllocatorStatistic.getTotalAllocBytes, AllocatorStatistic.getTotalReallocs,
          AllocatorStatistic.getTotalReallocFails, AllocatorStatistic.getTotalReallocGrowth,
          AllocatorStatistic.getTotalReallocShrink, AllocatorStatistic.getTotalReallocMoves,
          AllocatorStatistic.getTotalReallocMoved, AllocatorStatistic.getTotalOffers,
          AllocatorStatistic.getTotalOfferBytes, AllocatorStatistic.getTotalReclaims,
          AllocatorStatistic.getTotalReclaimFails, AllocatorStatistic.getTotalReclaimBytes]
        and_intros <;> (try simp only [wrap64, SIZE_MOD]) <;> omega
    · simp only [AllocatorStatistic.step, AllocatorStatistic.allocD, hh]
      simp only [MonotoneExceptSmallest, AllocatorStatistic.getHighestUsage,
        AllocatorStatistic.getLargestAlloc, AllocatorStatistic.getTotalAllocs,
        AllocatorStatistic.getTotalAllocFails, AllocatorStatistic.getLargestAllocFailed,
        AllocatorStatistic.getTotalAllocBytes, AllocatorStatistic.getTotalReallocs,
        AllocatorStatistic.getTotalReallocFails, AllocatorStatistic.getTotalReallocGrowth,
        AllocatorStatistic.getTotalReallocShrink, AllocatorStatistic.getTotalReallocMoves,
        AllocatorStatistic.getTotalReallocMoved, AllocatorStatistic.getTotalOffers,
        AllocatorStatistic.getTotalOfferBytes, AllocatorStatistic.getTotalReclaims,
        AllocatorStatistic.getTotalReclaimFails, AllocatorStatistic.getTotalReclaimBytes]
      and_intros <;> (try simp only [wrap64, SIZE_MOD]) <;> omega
  | free ptr =>
    simp only [AllocatorStatistic.step, AllocatorStatistic.free]
    simp only [MonotoneExceptSmallest, AllocatorStatistic.getHighestUsage,
        AllocatorStatistic.getLargestAlloc, AllocatorStatistic.getTotalAllocs,
        AllocatorStatistic.getTotalAllocFails, AllocatorStatistic.getLargestAllocFailed,
        AllocatorStatistic.getTotalAllocBytes, AllocatorStatistic.getTotalReallocs,
        AllocatorStatistic.getTotalReallocFails, AllocatorStatistic.getTotalReallocGrowth,
        AllocatorStatistic.getTotalReallocShrink, AllocatorStatistic.getTotalReallocMoves,
        AllocatorStatistic.getTotalReallocMoved, AllocatorStatistic.getTotalOffers,
        AllocatorStatistic.getTotalOfferBytes, AllocatorStatistic.getTotalReclaims,
        AllocatorStatistic.getTotalReclaimFails, AllocatorStatistic.getTotalReclaimBytes]
    and_intros <;> omega
  | realloc ptr bytes align =>
    obtain ⟨h1, h2, h3, h4, h5, h6, h7⟩ := hb
    simp only [SIZE_MOD] at h1 h2 h3 h4 h5 h6 h7
    rcases hh : bk.realloc b ptr bytes align with ⟨p | e, b'⟩
    · by_cases hp : p = 0
      · simp only [AllocatorStatistic.step, AllocatorStatistic.realloc, hh]
        rw [if_neg (by simpa using hp)]
        simp only [MonotoneExceptSmallest, AllocatorStatistic.getHighestUsage,
          AllocatorStatistic.getLargestAlloc, AllocatorStatistic.getTotalAllocs,
          AllocatorStatistic.getTotalAllocFails, AllocatorStatistic.getLargestAllocFailed,
          AllocatorStatistic.getTotalAllocBytes, AllocatorStatistic.getTotalReallocs,
          AllocatorStatistic.getTotalReallocFails, AllocatorStatistic.getTotalReallocGrowth,
          AllocatorStatistic.getTotalReallocShrink, AllocatorStatistic.getTotalReallocMoves,
          AllocatorStatistic.getTotalReallocMoved, AllocatorStatistic.getTotalOffers,
          AllocatorStatistic.getTotalOfferBytes, AllocatorStatistic.getTotalReclaims,
          AllocatorStatistic.getTotalReclaimFails, AllocatorStatistic.getTotalReclaimBytes]
        and_intros <;> (try simp only [wrap64, SIZE_MOD]) <;> omega
      · simp only [AllocatorStatistic.step, AllocatorStatistic.realloc, hh]
        rw [if_pos hp]
        repeat' split
        all_goals
          simp only [MonotoneExceptSmallest, AllocatorStatistic.getHighestUsage,
            AllocatorStatistic.getLargestAlloc, AllocatorStatistic.getTotalAllocs,
            AllocatorStatistic.getTotalAllocFails, AllocatorStatistic.getLargestAllocFailed,
            AllocatorStatistic.getTotalAllocBytes, AllocatorStatistic.getTotalReallocs,
            AllocatorStatistic.getTotalReallocFails, AllocatorStatistic.getTotalReallocGrowth,
            AllocatorStatistic.getTotalReallocShrink, AllocatorStatistic.getTotalReallocMoves,
            AllocatorStatistic.getTotalReallocMoved, AllocatorStatistic.getTotalOffers,
            AllocatorStatistic.getTotalOfferBytes, AllocatorStatistic.getTotalReclaims,
            AllocatorStatistic.getTotalReclaimFails, AllocatorStatistic.getTotalReclaimBytes]
        all_goals and_intros <;> (try simp only [wrap64, SIZE_MOD]) <;> omega
    · simp only [AllocatorStatistic.step, AllocatorStatistic.realloc, hh]
      simp only [MonotoneExceptSmallest, AllocatorStatistic.getHighestUsage,
        AllocatorStatistic.getLargestAlloc, AllocatorStatistic.getTotalAllocs,
        AllocatorStatistic.getTotalAllocFails, AllocatorStatistic.getLargestAllocFailed,
        AllocatorStatistic.getTotalAllocBytes, AllocatorStatistic.getTotalReallocs,
        AllocatorStatistic.getTotalReallocFails, AllocatorStatistic.getTotalReallocGrowth,
        AllocatorStatistic.getTotalReallocShrink, AllocatorStatistic.getTotalReallocMoves,
        AllocatorStatistic.getTotalReallocMoved, AllocatorStatistic.getTotalOffers,
        AllocatorStatistic.getTotalOfferBytes, AllocatorStatistic.getTotalReclaims,
        AllocatorStatistic.getTotalReclaimFails, AllocatorStatistic.getTotalReclaimBytes]
      and_intros <;> (try simp only [wrap64, SIZE_MOD]) <;> omega
  | reallocD ptr bytes dtor align =>
    obtain ⟨h1, h2, h3, h4, h5, h6, h7⟩ := hb
    simp only [SIZE_MOD] at h1 h2 h3 h4 h5 h6 h7
    rcases hh : bk.reallocD b ptr bytes dtor align with ⟨p | e, b'⟩
    · by_cases hp : p = 0
      · simp only [AllocatorStatistic.step, AllocatorStatistic.reallocD, hh]
        rw [if_neg (by simpa using hp)]
        simp only [MonotoneExceptSmallest, AllocatorStatistic.getHighestUsage,
          AllocatorStatistic.getLargestAlloc, AllocatorStatistic.getTotalAllocs,
          AllocatorStatistic.getTotalAllocFails, AllocatorStatistic.getLargestAllocFailed,
          AllocatorStatistic.getTotalAllocBytes, AllocatorStatistic.getTotalReallocs,
          AllocatorStatistic.getTotalReallocFails, AllocatorStatistic.getTotalReallocGrowth,
          AllocatorStatistic.getTotalReallocShrink, AllocatorStatistic.getTotalReallocMoves,
          AllocatorStatistic.getTotalReallocMoved, AllocatorStatistic.getTotalOffers,
          AllocatorStatistic.getTotalOfferBytes, AllocatorStatistic.getTotalReclaims,
          AllocatorStatistic.getTotalReclaimFails, AllocatorStatistic.getTotalReclaimBytes]
        and_intros <;> (try simp only [wrap64, SIZE_MOD]) <;> omega
      · simp only [AllocatorStatistic.step, AllocatorStatistic.reallocD, hh]
        rw [if_pos hp]
        repeat' split
        all_goals
          simp only [MonotoneExceptSmallest, AllocatorStatistic.getHighestUsage,
            AllocatorStatistic.getLargestAlloc, AllocatorStatistic.getTotalAllocs,
            AllocatorStatistic.getTotalAllocFails, AllocatorStatistic.getLargestAllocFailed,
            AllocatorStatistic.getTotalAllocBytes, AllocatorStatistic.getTotalReallocs,
            AllocatorStatistic.getTotalReallocFails, AllocatorStatistic.getTotalReallocGrowth,
            AllocatorStatistic.getTotalReallocShrink, AllocatorStatistic.getTotalReallocMoves,
            AllocatorStatistic.getTotalReallocMoved, AllocatorStatistic.getTotalOffers,
            AllocatorStatistic.getTotalOfferBytes, AllocatorStatistic.getTotalReclaims,
            AllocatorStatistic.getTotalReclaimFails, AllocatorStatistic.getTotalReclaimBytes]
        all_goals and_intros <;> (try simp only [wrap64, SIZE_MOD]) <;> omega
    · simp only [AllocatorStatistic.step, AllocatorStatistic.reallocD, hh]
      simp only [MonotoneExceptSmallest, AllocatorStatistic.getHighestUsage,
        AllocatorStatistic.getLargestAlloc, AllocatorStatistic.getTotalAllocs,
        AllocatorStatistic.getTotalAllocFails, AllocatorStatistic.getLargestAllocFailed,
        AllocatorStatistic.getTotalAllocBytes, AllocatorStatistic.getTotalReallocs,
        AllocatorStatistic.getTotalReallocFails, AllocatorStatistic.getTotalReallocGrowth,
        AllocatorStatistic.getTotalReallocShrink, AllocatorStatistic.getTotalReallocMoves,
        AllocatorStatistic.getTotalReallocMoved, AllocatorStatistic.getTotalOffers,
        AllocatorStatistic.getTotalOfferBytes, AllocatorStatistic.getTotalReclaims,
        AllocatorStatistic.getTotalReclaimFails, AllocatorStatistic.getTotalReclaimBytes]
      and_intros <;> (try simp only [wrap64, SIZE_MOD]) <;> omega
  | offer ptr priority =>
    obtain ⟨h1, h2⟩ := hb
    simp only [SIZE_MOD] at h1 h2
    rcases hh : bk.offer b ptr priority with ⟨r, b'⟩
    simp only [AllocatorStatistic.step, AllocatorStatistic.offer, hh]
    simp only [MonotoneExceptSmallest, AllocatorStatistic.getHighestUsage,
        AllocatorStatistic.getLargestAlloc, AllocatorStatistic.getTotalAllocs,
        AllocatorStatistic.getTotalAllocFails, AllocatorStatistic.getLargestAllocFailed,
        AllocatorStatistic.getTotalAllocBytes, AllocatorStatistic.getTotalReallocs,
        AllocatorStatistic.getTotalReallocFails, AllocatorStatistic.getTotalReallocGrowth,
        AllocatorStatistic.getTotalReallocShrink, AllocatorStatistic.getTotalReallocMoves,
        AllocatorStatistic.getTotalReallocMoved, AllocatorStatistic.getTotalOffers,
        AllocatorStatistic.getTotalOfferBytes, AllocatorStatistic.getTotalReclaims,
        AllocatorStatistic.getTotalReclaimFails, AllocatorStatistic.getTotalReclaimBytes]
    and_intros <;> (try simp only [wrap64, SIZE_MOD]) <;> omega
  | reclaim ptr =>
    obtain ⟨h1, h2, h3⟩ := hb
    simp only [SIZE_MOD] at h1 h2 h3
    rcases hh : bk.reclaim b ptr with ⟨p | e, b'⟩
    · simp only [hh] at h3
      by_cases hp : p = 0
      · simp only [AllocatorStatistic.step, AllocatorStatistic.reclaim, hh]
        rw [if_pos hp]
        simp only [MonotoneExceptSmallest, AllocatorStatistic.getHighestUsage,
          AllocatorStatistic.getLargestAlloc, AllocatorStatistic.getTotalAllocs,
          AllocatorStatistic.getTotalAllocFails, AllocatorStatistic.getLargestAllocFailed,
          AllocatorStatistic.getTotalAllocBytes, AllocatorStatistic.getTotalReallocs,
          AllocatorStatistic.getTotalReallocFails, AllocatorStatistic.getTotalReallocGrowth,
          AllocatorStatistic.getTotalReallocShrink, AllocatorStatistic.getTotalReallocMoves,
          AllocatorStatistic.getTotalReallocMoved, AllocatorStatistic.getTotalOffers,
          AllocatorStatistic.getTotalOfferBytes, AllocatorStatistic.getTotalReclaims,
          AllocatorStatistic.getTotalReclaimFails, AllocatorStatistic.getTotalReclaimBytes]
        and_intros <;> (try simp only [wrap64, SIZE_MOD]) <;> omega
      · simp only [AllocatorStatistic.step, AllocatorStatistic.reclaim, hh]
        rw [if_neg hp]
        simp only [MonotoneExceptSmallest, AllocatorStatistic.getHighestUsage,
          AllocatorStatistic.getLargestAlloc, AllocatorStatistic.getTotalAllocs,
          AllocatorStatistic.getTotalAllocFails, AllocatorStatistic.getLargestAllocFailed,
          AllocatorStatistic.getTotalAllocBytes, AllocatorStatistic.getTotalReallocs,
          AllocatorStatistic.getTotalReallocFails, AllocatorStatistic.getTotalReallocGrowth,
          AllocatorStatistic.getTotalReallocShrink, AllocatorStatistic.getTotalReallocMoves,
          AllocatorStatistic.getTotalReallocMoved, AllocatorStatistic.getTotalOffers,
          AllocatorStatistic.getTotalOfferBytes, AllocatorStatistic.getTotalReclaims,
          AllocatorStatistic.getTotalReclaimFails, AllocatorStatistic.getTotalReclaimBytes]
        and_intros <;> (try simp only [wrap64, SIZE_MOD]) <;> omega
    · simp only [AllocatorStatistic.step, AllocatorStatistic.reclaim, hh]
      simp only [MonotoneExceptSmallest, AllocatorStatistic.getHighestUsage,
        AllocatorStatistic.getLargestAlloc, AllocatorStatistic.getTotalAllocs,
        AllocatorStatistic.getTotalAllocFails, AllocatorStatistic.getLargestAllocFailed,
        AllocatorStatistic.getTotalAllocBytes, AllocatorStatistic.getTotalReallocs,
        AllocatorStatistic.getTotalReallocFails, AllocatorStatistic.getTotalReallocGrowth,
        AllocatorStatistic.getTotalReallocShrink, AllocatorStatistic.getTotalReallocMoves,
        AllocatorStatistic.getTotalReallocMoved, AllocatorStatistic.getTotalOffers,
        AllocatorStatistic.getTotalOfferBytes, AllocatorStatistic.getTotalReclaims,
        AllocatorStatistic.getTotalReclaimFails, AllocatorStatistic.getTotalReclaimBytes]
      and_intros <;> (try simp only [wrap64, SIZE_MOD]) <;> omega
  | purge priority =>
    simp only [AllocatorStatistic.step, AllocatorStatistic.purge]
    simp only [MonotoneExceptSmallest, AllocatorStatistic.getHighestUsage,
        AllocatorStatistic.getLargestAlloc, AllocatorStatistic.getTotalAllocs,
        AllocatorStatistic.getTotalAllocFails, AllocatorStatistic.getLargestAllocFailed,
        AllocatorStatistic.getTotalAllocBytes, AllocatorStatistic.getTotalReallocs,
        AllocatorStatistic.getTotalReallocFails, AllocatorStatistic.getTotalReallocGrowth,
        AllocatorStatistic.getTotalReallocShrink, AllocatorStatistic.getTotalReallocMoves,
        AllocatorStatistic.getTotalReallocMoved, AllocatorStatistic.getTotalOffers,
        AllocatorStatistic.getTotalOfferBytes, AllocatorStatistic.getTotalReclaims,
        AllocatorStatistic.getTotalReclaimFails, AllocatorStatistic.getTotalReclaimBytes]
    and_intros <;> omega
  | reset => simp [AllocOp.isCounterReset] at hop
  | clear => simp [AllocOp.isCounterReset] at hop
  | resetCounters => simp [AllocOp.isCounterReset] at hop

/-- C8 witness: the non-resetting operation `free` on fresh counters. -/
theorem counters_monotone_per_op_witness :
    MonotoneExceptSmallest Stats.init
      (AllocatorStatistic.step (bkFun 1 (fun _ => 0) 1 1) Stats.init ()
        (AllocOp.free 1)).1 :=
  counters_monotone_per_op (bkFun 1 (fun _ => 0) 1 1) Stats.init ()
    (AllocOp.free 1) rfl trivial
